import Mathlib

/-!
Context-engineering MCP server: the tool dispatcher and its in-memory store.

Shallow embedding of `src/mcp-server/standalone_mcp_server.js`
(class `StandaloneMCPServer`): the three `Map`s (`sessions`, `windows`,
`templates`) and the `CallToolRequestSchema` handler (lines 123-290).

Modelling decisions, each read off the source:

* Argument values are JSON values as delivered by the transport (`JVal`).
  Numbers are the integers that a double holds exactly and prints in plain
  decimal digits (magnitude up to 2^53); fractional numbers and larger
  integers, which arrive rounded and from 10^21 on print in exponent form,
  are outside the model (the handler never computes with a number, it only
  tests truthiness, stores and prints it).
* `a || b` is `JVal.orElse`, `a === b` is `JVal.strictEq`, and the string
  conversion of a template literal is `JVal.toStr`, which fails (JavaScript
  raises a `TypeError`) on an object that has an own `toString` entry, since
  a JSON value is never callable.
* A JavaScript `Map` is an insertion-ordered association list (`JMap`):
  `set` on a present key replaces the value in place, on an absent key it
  appends.  Entities are objects held by reference only from their `Map`,
  so `session.windows.push` and `window.elements.push` are in-place updates
  of the entry under that key (`JMap.modify`).
* `this.generateId()` and `new Date().toISOString()` read the random source
  and the clock; their results are inputs of one invocation (`Env`).  In
  `generateId` itself the random value and the clock value are inputs, and
  the engine's printing of a double in base 36, which is floating-point
  arithmetic, is a parameter.
* The response is the object handed to `JSON.stringify` together with the
  `isError` flag.  A `throw` is an `Except.error` carrying `error.message`;
  the store that the `catch` block leaves behind is the store at the moment
  of the `throw`.
-/

namespace StandaloneMCPServer

/-! ## JSON values and the JavaScript operators the handler applies to them -/

/-- JSON values, plus `undefined` for a property that is not there.  A `num`
stands for an integer of magnitude up to 2^53: these are the numbers that
arrive as written and that print as their decimal digits. -/
inductive JVal where
  | undefined
  | null
  | bool (b : Bool)
  | num (n : Int)
  | str (s : String)
  | arr (items : List JVal)
  | obj (fields : List (String × JVal))

namespace JVal

/-- ToBoolean: `undefined`, `null`, `false`, `0` and `""` are falsy, every
other value (every array and object included) is truthy. -/
def truthy : JVal → Bool
  | undefined => false
  | null => false
  | bool b => b
  | num n => n != 0
  | str s => s != ""
  | arr _ => true
  | obj _ => true

/-- The expression `a || b`. -/
def orElse (a b : JVal) : JVal :=
  if a.truthy then a else b

/-- The expression `a === b` for values of two different requests: arrays and
objects are compared by reference, and two parsed requests share none. -/
def strictEq : JVal → JVal → Bool
  | undefined, undefined => true
  | null, null => true
  | bool a, bool b => a == b
  | num a, num b => a == b
  | str a, str b => a == b
  | _, _ => false

/-- Whether an object has an own entry named `toString`. -/
def hasOwnToString (fields : List (String × JVal)) : Bool :=
  fields.any (fun p => p.1 == "toString")

mutual
/-- ToString, as applied by a template literal; `none` is the `TypeError`
"Cannot convert object to primitive value". -/
def toStr : JVal → Option String
  | undefined => some "undefined"
  | null => some "null"
  | bool b => some (if b then "true" else "false")
  | num n => some (toString n)
  | str s => some s
  | arr items => joinStr items
  | obj fields => if hasOwnToString fields then none else some "[object Object]"
/-- The text of one array element inside `Array.prototype.join`: `undefined`
and `null` print as the empty string. -/
def itemStr : JVal → Option String
  | undefined => some ""
  | null => some ""
  | bool b => some (if b then "true" else "false")
  | num n => some (toString n)
  | str s => some s
  | arr items => joinStr items
  | obj fields => if hasOwnToString fields then none else some "[object Object]"
/-- The method `Array.prototype.join` with the default separator `,`. -/
def joinStr : List JVal → Option String
  | [] => some ""
  | [v] => itemStr v
  | v :: w :: rest =>
    match itemStr v, joinStr (w :: rest) with
    | some a, some b => some (a ++ "," ++ b)
    | _, _ => none
end

end JVal

/-! ## The argument bag -/

/-- The `arguments` object of a request. -/
abbrev Args := List (String × JVal)

/-- Property read `args.field` on a present argument bag. -/
def Args.get : Args → String → JVal
  | [], _ => JVal.undefined
  | (k, v) :: rest, field => if k = field then v else Args.get rest field

/-- Message of the `TypeError` raised by reading a property of `undefined`. -/
def undefinedReadMessage (field : String) : String :=
  "Cannot read properties of undefined (reading \x27" ++ field ++ "\x27)"

/-- Message of the `TypeError` raised by a failed string conversion. -/
def cannotConvertMessage : String :=
  "Cannot convert object to primitive value"

/-! ## The `Map` collections -/

/-- A JavaScript `Map` with string keys, in insertion order. -/
abbrev JMap (V : Type) := List (String × V)

namespace JMap

variable {V : Type}

/-- Lookup of a string key. -/
def getStr : JMap V → String → Option V
  | [], _ => none
  | (k, v) :: rest, key => if k = key then some v else getStr rest key

/-- The method `Map.prototype.get`: every key of the collections is a string,
so a key of any other type is not found. -/
def get (m : JMap V) : JVal → Option V
  | JVal.str s => getStr m s
  | _ => none

/-- The method `Map.prototype.set`. -/
def set : JMap V → String → V → JMap V
  | [], key, v => [(key, v)]
  | (k, w) :: rest, key, v =>
    if k = key then (k, v) :: rest else (k, w) :: set rest key v

/-- In-place update of the object stored under `key`. -/
def modify : JMap V → String → (V → V) → JMap V
  | [], _, _ => []
  | (k, w) :: rest, key, f =>
    if k = key then (k, f w) :: rest else (k, w) :: modify rest key f

/-- In-place update of the object that `get` returned for `key`. -/
def modifyAt (m : JMap V) : JVal → (V → V) → JMap V
  | JVal.str s, f => modify m s f
  | _, _ => m

/-- The property `Map.prototype.size`. -/
def size (m : JMap V) : Nat := m.length

/-- The keys, in insertion order. -/
def keys (m : JMap V) : List String := m.map Prod.fst

/-- The call `Array.from(map.values())`. -/
def values (m : JMap V) : List V := m.map Prod.snd

end JMap

/-! ## Entities and the store -/

/-- A session object (lines 130-136). -/
structure Session where
  id : String
  name : JVal
  description : JVal
  created_at : String
  windows : List String

/-- An element object (lines 189-194). -/
structure Element where
  content : JVal
  type : JVal
  priority : JVal
  created_at : String

/-- A context window object (lines 154-161). -/
structure Window where
  id : String
  session_id : JVal
  max_tokens : JVal
  reserved_tokens : JVal
  elements : List Element
  created_at : String

/-- A prompt template object (lines 230-237). -/
structure Template where
  id : String
  name : JVal
  description : JVal
  template : JVal
  category : JVal
  created_at : String

/-- The template object as it is serialised in a listing. -/
def Template.toJVal (t : Template) : JVal :=
  JVal.obj [("id", JVal.str t.id), ("name", t.name), ("description", t.description),
    ("template", t.template), ("category", t.category), ("created_at", JVal.str t.created_at)]

/-- The in-memory storage of the server (lines 35-37). -/
structure Store where
  sessions : JMap Session
  windows : JMap Window
  templates : JMap Template

/-- The storage right after the constructor ran. -/
def Store.empty : Store := ⟨[], [], []⟩

/-- What one invocation reads from the random source and the clock. -/
structure Env where
  id : String
  now : String

/-- The object handed to `JSON.stringify`. -/
abbrev Payload := List (String × JVal)

/-- Lookup of a field of a payload. -/
def Payload.field (p : Payload) (key : String) : Option JVal :=
  JMap.getStr p key

/-- The value returned by the handler: the serialised object and the
`isError` flag (absent on a normal return, `true` in the `catch` block). -/
structure Response where
  payload : Payload
  isError : Bool

/-! ## The handler, one definition per `case` -/

/-- Lines 128-150. -/
def create_context_session (st : Store) (env : Env) :
    Option Args → Except String Payload × Store
  | none => (.error (undefinedReadMessage "name"), st)
  | some args =>
    let sessionId := env.id
    let session : Session :=
      { id := sessionId
        name := (args.get "name").orElse (JVal.str "New Session")
        description := (args.get "description").orElse (JVal.str "")
        created_at := env.now
        windows := [] }
    let st1 : Store := { st with sessions := st.sessions.set sessionId session }
    match session.name.toStr with
    | none => (.error cannotConvertMessage, st1)
    | some nm =>
      (.ok [("success", JVal.bool true), ("session_id", JVal.str sessionId),
            ("message", JVal.str ("Session created: " ++ nm))], st1)

/-- Lines 152-181. -/
def create_context_window (st : Store) (env : Env) :
    Option Args → Except String Payload × Store
  | none => (.error (undefinedReadMessage "session_id"), st)
  | some args =>
    let windowId := env.id
    let window : Window :=
      { id := windowId
        session_id := args.get "session_id"
        max_tokens := (args.get "max_tokens").orElse (JVal.num 8192)
        reserved_tokens := (args.get "reserved_tokens").orElse (JVal.num 512)
        elements := []
        created_at := env.now }
    let st1 : Store := { st with windows := st.windows.set windowId window }
    let st2 : Store :=
      match st1.sessions.get (args.get "session_id") with
      | some _ =>
        { st1 with sessions := (st1.sessions.modifyAt (args.get "session_id")
            (fun s => { s with windows := s.windows ++ [windowId] })) }
      | none => st1
    match window.max_tokens.toStr with
    | none => (.error cannotConvertMessage, st2)
    | some mt =>
      (.ok [("success", JVal.bool true), ("window_id", JVal.str windowId),
            ("message", JVal.str ("Context window created with " ++ mt ++ " max tokens"))], st2)

/-- Lines 183-210. -/
def add_context_element (st : Store) (env : Env) :
    Option Args → Except String Payload × Store
  | none => (.error (undefinedReadMessage "window_id"), st)
  | some args =>
    match st.windows.get (args.get "window_id") with
    | none => (.error "Window not found", st)
    | some window =>
      let element : Element :=
        { content := args.get "content"
          type := (args.get "type").orElse (JVal.str "user")
          priority := (args.get "priority").orElse (JVal.num 5)
          created_at := env.now }
      let st1 : Store :=
        { st with windows := (st.windows.modifyAt (args.get "window_id")
            (fun w => { w with elements := w.elements ++ [element] })) }
      (.ok [("success", JVal.bool true),
            ("message", JVal.str "Element added to context window"),
            ("element_count", JVal.num ((window.elements ++ [element]).length : Nat))], st1)

/-- Lines 212-226. -/
def get_context_stats (st : Store) : Except String Payload × Store :=
  (.ok [("sessions", JVal.num (st.sessions.size : Nat)),
        ("windows", JVal.num (st.windows.size : Nat)),
        ("templates", JVal.num (st.templates.size : Nat)),
        ("status", JVal.str "operational")], st)

/-- Lines 228-252. -/
def create_prompt_template (st : Store) (env : Env) :
    Option Args → Except String Payload × Store
  | none => (.error (undefinedReadMessage "name"), st)
  | some args =>
    let templateId := env.id
    let template : Template :=
      { id := templateId
        name := args.get "name"
        description := args.get "description"
        template := args.get "template"
        category := (args.get "category").orElse (JVal.str "general")
        created_at := env.now }
    let st1 : Store := { st with templates := st.templates.set templateId template }
    match template.name.toStr with
    | none => (.error cannotConvertMessage, st1)
    | some nm =>
      (.ok [("success", JVal.bool true), ("template_id", JVal.str templateId),
            ("message", JVal.str ("Template created: " ++ nm))], st1)

/-- Lines 254-271. -/
def list_prompt_templates (st : Store) :
    Option Args → Except String Payload × Store
  | none => (.error (undefinedReadMessage "category"), st)
  | some args =>
    let templates := st.templates.values
    let filtered :=
      if (args.get "category").truthy
      then templates.filter (fun t => t.category.strictEq (args.get "category"))
      else templates
    (.ok [("templates", JVal.arr (filtered.map Template.toJVal)),
          ("total", JVal.num (filtered.length : Nat))], st)

/-- The `switch (name)` of lines 127-275. -/
def dispatch (st : Store) (env : Env) (name : String) (args : Option Args) :
    Except String Payload × Store :=
  if name = "create_context_session" then create_context_session st env args
  else if name = "create_context_window" then create_context_window st env args
  else if name = "add_context_element" then add_context_element st env args
  else if name = "get_context_stats" then get_context_stats st
  else if name = "create_prompt_template" then create_prompt_template st env args
  else if name = "list_prompt_templates" then list_prompt_templates st args
  else (.error ("Unknown tool: " ++ name), st)

/-- The tool names of the catalog (lines 43-121), in the order listed. -/
def catalog : List String :=
  ["create_context_session", "create_context_window", "add_context_element",
   "get_context_stats", "create_prompt_template", "list_prompt_templates"]

/-- The `try`/`catch` of lines 126-289: the handler of `CallToolRequestSchema`. -/
def callTool (st : Store) (env : Env) (name : String) (args : Option Args) :
    Response × Store :=
  match dispatch st env name args with
  | (.ok payload, st1) => ({ payload := payload, isError := false }, st1)
  | (.error message, st1) =>
    ({ payload := [("error", JVal.str message), ("tool", JVal.str name)], isError := true }, st1)

/-! ## Runs of the server -/

/-- One request together with what the handler reads from its environment. -/
structure Request where
  name : String
  args : Option Args
  env : Env

/-- The store after serving the requests in order. -/
def run : Store → List Request → Store
  | st, [] => st
  | st, r :: rest => run (callTool st r.env r.name r.args).2 rest

/-- Store states reachable from the empty store. -/
inductive Reachable : Store → Prop where
  | init : Reachable Store.empty
  | step {st : Store} (env : Env) (name : String) (args : Option Args) :
      Reachable st → Reachable (callTool st env name args).2

/-- The tools whose `case` calls `this.generateId()` (lines 129, 153, 229);
the call is the first statement of the case, so it happens on every
invocation of these tools. -/
def generators : List String :=
  ["create_context_session", "create_context_window", "create_prompt_template"]

/-- The identifiers generated while serving the requests, in order. -/
def generatedIds : List Request → List String
  | [] => []
  | r :: rest =>
    if r.name ∈ generators then r.env.id :: generatedIds rest else generatedIds rest

/-- How many requests for `tool` ended without the Error envelope, when the
requests are served in order from `st`. -/
def successes (tool : String) : Store → List Request → Nat
  | _, [] => 0
  | st, r :: rest =>
    (if r.name = tool ∧ (callTool st r.env r.name r.args).1.isError = false then 1 else 0)
      + successes tool (callTool st r.env r.name r.args).2 rest

/-- No request of the run that ended in the Error envelope changed the store. -/
def AtomicFailures : Store → List Request → Prop
  | _, [] => True
  | st, r :: rest =>
    ((callTool st r.env r.name r.args).1.isError = true →
      (callTool st r.env r.name r.args).2 = st) ∧
    AtomicFailures (callTool st r.env r.name r.args).2 rest

/-- The object that `get_context_stats` serialises for the given counts. -/
def statsPayload (sessions windows templates : Nat) : Payload :=
  [("sessions", JVal.num (sessions : Nat)), ("windows", JVal.num (windows : Nat)),
   ("templates", JVal.num (templates : Nat)), ("status", JVal.str "operational")]

/-- A sample run: a session, a window in it, an element for a window that
does not exist (refused), and a template. -/
def sampleRun : List Request :=
  [⟨"create_context_session", some [("name", JVal.str "Research")], ⟨"a1", "t1"⟩⟩,
   ⟨"create_context_window", some [("session_id", JVal.str "a1")], ⟨"a2", "t2"⟩⟩,
   ⟨"add_context_element",
     some [("window_id", JVal.str "zz"), ("content", JVal.str "hello")], ⟨"a3", "t3"⟩⟩,
   ⟨"create_prompt_template",
     some [("name", JVal.str "Summary"), ("description", JVal.str "d"),
           ("template", JVal.str "Summarise")], ⟨"a4", "t4"⟩⟩]

/-- The store after one `create_prompt_template` without a category on the
empty store: a single template, of category "general". -/
def oneTemplateStore : Store :=
  (callTool Store.empty ⟨"p1", "t1"⟩ "create_prompt_template"
    (some [("name", JVal.str "Summary"), ("description", JVal.str "d"),
           ("template", JVal.str "Summarise")])).2

/-- The store after one `create_context_window` on the empty store: a single
window, under the key "w1". -/
def oneWindowStore : Store :=
  (callTool Store.empty ⟨"w1", "t1"⟩ "create_context_window"
    (some [("session_id", JVal.str "s1")])).2

/-- The payload of a listing of the given templates. -/
def listingPayload (ts : List Template) : Payload :=
  [("templates", JVal.arr (ts.map Template.toJVal)), ("total", JVal.num (ts.length : Nat))]

/-! ## The identifier generator -/

/-- One digit of a base-36 numeral: `0`-`9`, then `a`-`z`. -/
def base36Digit (d : Nat) : Char :=
  if d < 10 then Char.ofNat (48 + d) else Char.ofNat (87 + d)

/-- The call `n.toString(36)` on a non-negative integer, as applied to
`Date.now()`. -/
def toBase36 (n : Nat) : String :=
  if n = 0 then "0" else String.mk ((Nat.digits 36 n).reverse.map base36Digit)

/-- Lines 293-295.  `random` is the value of `Math.random()`, a double in
[0, 1), held as the rational number it denotes, and `nowMs` is `Date.now()`;
both are read from the environment by the call.  `radix36` is the engine's
`toString(36)` on such a double (a text of the shape `0.` followed by base-36
digits): it is computed in floating-point arithmetic and stops at the digits
the engine finds sufficient, so it is a parameter here and nothing is assumed
of it; in particular two different doubles may print the same text. -/
def generateId (radix36 : ℚ → String) (random : ℚ) (nowMs : Nat) : String :=
  (radix36 random).drop 2 ++ toBase36 nowMs

/-- The values returned by sequential calls of `generateId` that read the
given random values and clock values. -/
def generatedBy (radix36 : ℚ → String) (readings : List (ℚ × Nat)) : List String :=
  readings.map (fun p => generateId radix36 p.1 p.2)

/-- The printing of the two doubles used in the examples below: 0.5 and 0.25
have the exact one-digit base-36 expansions `0.i` and `0.9`, which is what
`toString(36)` returns for them.  Every other value is given the text `0`
here; no statement relies on it. -/
def radix36Sample (r : ℚ) : String :=
  if r = 1 / 2 then "0.i" else if r = 1 / 4 then "0.9" else "0"

/-! ## Typed argument bags -/

/-- The request supplies `max_tokens` and `reserved_tokens` as integers, or
not at all. -/
def IntegerTokens (r : Request) : Prop :=
  ∀ a, r.args = some a →
    (a.get "max_tokens" = JVal.undefined ∨ ∃ n, a.get "max_tokens" = JVal.num n) ∧
    (a.get "reserved_tokens" = JVal.undefined ∨ ∃ n, a.get "reserved_tokens" = JVal.num n)

/-- No integer that the request supplies as `max_tokens` or `reserved_tokens`
is negative. -/
def NoNegativeTokens (r : Request) : Prop :=
  ∀ a, r.args = some a →
    (∀ n, a.get "max_tokens" = JVal.num n → 0 ≤ n) ∧
    (∀ n, a.get "reserved_tokens" = JVal.num n → 0 ≤ n)

/-- The store after one `create_context_session` on the empty store: a single
session, under the key "a1". -/
def oneSessionStore : Store :=
  (callTool Store.empty ⟨"a1", "t1"⟩ "create_context_session"
    (some [("name", JVal.str "Research")])).2

/-! ## Lemmas on the collections -/

namespace JMap

variable {V : Type}

theorem getStr_set_self (m : JMap V) (key : String) (v : V) :
    getStr (set m key v) key = some v := by
  induction m with
  | nil => simp [set, getStr]
  | cons p rest ih =>
    obtain ⟨k, w⟩ := p
    by_cases h : k = key
    · simp [set, getStr, h]
    · simp [set, getStr, h, ih]

theorem getStr_set_other (m : JMap V) (key k2 : String) (v : V) (h : k2 ≠ key) :
    getStr (set m key v) k2 = getStr m k2 := by
  induction m with
  | nil => simp [set, getStr, Ne.symm h]
  | cons p rest ih =>
    obtain ⟨k, w⟩ := p
    by_cases hk : k = key
    · subst hk
      simp [set, getStr, Ne.symm h]
    · by_cases hk2 : k = k2
      · subst hk2
        simp [set, getStr, hk]
      · simp [set, getStr, hk, hk2, ih]

theorem getStr_modify_self (m : JMap V) (key : String) (f : V → V) :
    getStr (modify m key f) key = (getStr m key).map f := by
  induction m with
  | nil => simp [modify, getStr]
  | cons p rest ih =>
    obtain ⟨k, w⟩ := p
    by_cases h : k = key
    · simp [modify, getStr, h]
    · simp [modify, getStr, h, ih]

theorem getStr_modify_other (m : JMap V) (key k2 : String) (f : V → V) (h : k2 ≠ key) :
    getStr (modify m key f) k2 = getStr m k2 := by
  induction m with
  | nil => simp [modify, getStr]
  | cons p rest ih =>
    obtain ⟨k, w⟩ := p
    by_cases hk : k = key
    · subst hk
      simp [modify, getStr, Ne.symm h]
    · by_cases hk2 : k = k2
      · subst hk2
        simp [modify, getStr, hk]
      · simp [modify, getStr, hk, hk2, ih]

theorem keys_modify (m : JMap V) (key : String) (f : V → V) :
    keys (modify m key f) = keys m := by
  induction m with
  | nil => simp [modify, keys]
  | cons p rest ih =>
    obtain ⟨k, w⟩ := p
    by_cases h : k = key
    · simp [modify, keys, h]
    · simp only [keys] at ih
      simp [modify, keys, h, ih]

theorem size_modify (m : JMap V) (key : String) (f : V → V) :
    size (modify m key f) = size m := by
  have h := congrArg List.length (keys_modify m key f)
  simpa [keys, size] using h

theorem mem_keys_set (m : JMap V) (key x : String) (v : V) :
    x ∈ keys (set m key v) ↔ x ∈ keys m ∨ x = key := by
  induction m with
  | nil => simp [set, keys]
  | cons p rest ih =>
    obtain ⟨k, w⟩ := p
    simp only [keys] at ih
    by_cases h : k = key
    · subst h
      simp only [set, keys, if_true, List.map_cons, List.mem_cons]
      tauto
    · simp only [set, keys, h, if_false, List.map_cons, List.mem_cons, ih]
      tauto

theorem size_set_fresh (m : JMap V) (key : String) (v : V) (h : key ∉ keys m) :
    size (set m key v) = size m + 1 := by
  induction m with
  | nil => simp [set, size]
  | cons p rest ih =>
    obtain ⟨k, w⟩ := p
    simp only [keys, List.map_cons, List.mem_cons, not_or] at h
    have hk : ¬ k = key := fun e => h.1 e.symm
    have := ih (by simpa [keys] using h.2)
    simp only [size] at this
    simp [set, size, hk, this]

theorem modify_of_getStr_none (m : JMap V) (key : String) (f : V → V)
    (h : getStr m key = none) : modify m key f = m := by
  induction m with
  | nil => rfl
  | cons p rest ih =>
    obtain ⟨k, w⟩ := p
    by_cases hk : k = key
    · simp [getStr, hk] at h
    · simp only [getStr, hk, if_false] at h
      simp [modify, hk, ih h]

theorem modifyAt_of_get_none (m : JMap V) (key : JVal) (f : V → V)
    (h : get m key = none) : modifyAt m key f = m := by
  cases key <;> simp_all [modifyAt, get, modify_of_getStr_none]

theorem size_modifyAt (m : JMap V) (key : JVal) (f : V → V) :
    size (modifyAt m key f) = size m := by
  cases key <;> simp [modifyAt, size_modify]

theorem keys_modifyAt (m : JMap V) (key : JVal) (f : V → V) :
    keys (modifyAt m key f) = keys m := by
  cases key <;> simp [modifyAt, keys_modify]

end JMap

/-! ## Error paths of the dispatcher -/

/-- C1. For every store state (the reachable ones among them) and every
argument bag whose `window_id` is not a key of the windows collection,
`add_context_element` returns the Error envelope with error "Window not found",
tool "add_context_element" and the failure flag set, and the whole store
(sessions, windows with their element sequences, templates) is unchanged. -/
theorem add_context_element_unknown_window (st : Store) (env : Env) (args : Args)
    (h : st.windows.get (args.get "window_id") = none) :
    callTool st env "add_context_element" (some args) =
      ({ payload := [("error", JVal.str "Window not found"),
                     ("tool", JVal.str "add_context_element")],
         isError := true }, st) := by
  simp [callTool, dispatch, add_context_element, h]

/-- Witness for C1: on the empty store no window id is known. -/
theorem add_context_element_unknown_window_witness :
    Store.empty.windows.get
        (Args.get [("window_id", JVal.str "w0"), ("content", JVal.str "hello")] "window_id") = none ∧
    callTool Store.empty ⟨"id1", "t1"⟩ "add_context_element"
        (some [("window_id", JVal.str "w0"), ("content", JVal.str "hello")]) =
      ({ payload := [("error", JVal.str "Window not found"),
                     ("tool", JVal.str "add_context_element")],
         isError := true }, Store.empty) :=
  ⟨rfl, add_context_element_unknown_window Store.empty ⟨"id1", "t1"⟩
    [("window_id", JVal.str "w0"), ("content", JVal.str "hello")] rfl⟩

/-- C2. For every store state, every argument bag (present or absent) and every
command name outside the catalog, the dispatcher returns the Error envelope
whose error text is "Unknown tool: " followed by the name, whose tool field is
that name, with the failure flag set, and the store is unchanged. -/
theorem unknown_tool_error (st : Store) (env : Env) (name : String) (args : Option Args)
    (h : name ∉ catalog) :
    callTool st env name args =
      ({ payload := [("error", JVal.str ("Unknown tool: " ++ name)), ("tool", JVal.str name)],
         isError := true }, st) := by
  simp only [catalog, List.mem_cons, List.mem_singleton, List.not_mem_nil, or_false,
    not_or] at h
  obtain ⟨h1, h2, h3, h4, h5, h6⟩ := h
  simp [callTool, dispatch, h1, h2, h3, h4, h5, h6]

/-- Witness for C2: the name "delete_session" is not in the catalog. -/
theorem unknown_tool_error_witness :
    "delete_session" ∉ catalog ∧
    callTool Store.empty ⟨"id1", "t1"⟩ "delete_session" none =
      ({ payload := [("error", JVal.str ("Unknown tool: " ++ "delete_session")),
                     ("tool", JVal.str "delete_session")],
         isError := true }, Store.empty) :=
  ⟨by decide, unknown_tool_error Store.empty ⟨"id1", "t1"⟩ "delete_session" none (by decide)⟩

/-! ## Window creation -/

/-- C3 as stated fails: on the store with the session "a1", a
`create_context_window` call for that session whose `max_tokens` is an object
with an own `toString` entry appends the generated id "w1" to the session's
window list, and then ends in the Error envelope (the message of line 176
cannot be built): no success envelope and no `window_id` is returned. -/
theorem create_context_window_link_counterexample :
    (oneSessionStore.sessions.getStr "a1").map Session.windows = some [] ∧
    ((callTool oneSessionStore ⟨"w1", "t2"⟩ "create_context_window"
        (some [("session_id", JVal.str "a1"),
               ("max_tokens", JVal.obj [("toString", JVal.num 1)])])).2.sessions.getStr
        "a1").map Session.windows = some ["w1"] ∧
    (callTool oneSessionStore ⟨"w1", "t2"⟩ "create_context_window"
        (some [("session_id", JVal.str "a1"),
               ("max_tokens", JVal.obj [("toString", JVal.num 1)])])).1.isError = true ∧
    (callTool oneSessionStore ⟨"w1", "t2"⟩ "create_context_window"
        (some [("session_id", JVal.str "a1"),
               ("max_tokens", JVal.obj [("toString", JVal.num 1)])])).1.payload.field
        "window_id" = none := by
  refine ⟨rfl, rfl, rfl, rfl⟩

/-- C3, amended. For every store state and every `create_context_window` call
whose `session_id` is the key of an existing session: that session's window
list afterwards is its old list with exactly one entry appended at the end,
the entry being the generated window id; every other session is unchanged;
whenever the call returns a success envelope, that envelope carries the same
id as `window_id`; and it returns one whenever the window's `max_tokens` (8192
when missing or falsy) can be converted to a string. -/
theorem create_context_window_links_session (st : Store) (env : Env) (args : Args)
    (sid : String) (s : Session)
    (hsid : args.get "session_id" = JVal.str sid)
    (hs : st.sessions.getStr sid = some s) :
    (callTool st env "create_context_window" (some args)).2.sessions.getStr sid
        = some { s with windows := s.windows ++ [env.id] } ∧
    (∀ k, k ≠ sid →
      (callTool st env "create_context_window" (some args)).2.sessions.getStr k
        = st.sessions.getStr k) ∧
    ((callTool st env "create_context_window" (some args)).1.isError = false →
      (callTool st env "create_context_window" (some args)).1.payload.field "window_id"
        = some (JVal.str env.id)) ∧
    (((args.get "max_tokens").orElse (JVal.num 8192)).toStr ≠ none →
      (callTool st env "create_context_window" (some args)).1.isError = false) := by
  have hget : st.sessions.get (JVal.str sid) = some s := by simpa [JMap.get] using hs
  cases hmt : ((args.get "max_tokens").orElse (JVal.num 8192)).toStr with
  | none =>
    simp [callTool, dispatch, create_context_window, hsid, hget, hmt, JMap.modifyAt,
      JMap.getStr_modify_self, hs]
    intro k hk
    exact JMap.getStr_modify_other _ _ _ _ hk
  | some mt =>
    simp [callTool, dispatch, create_context_window, hsid, hget, hmt, JMap.modifyAt,
      JMap.getStr_modify_self, hs, Payload.field, JMap.getStr]
    intro k hk
    exact JMap.getStr_modify_other _ _ _ _ hk

/-- Witness for C3: a window created in the one session of a store. -/
theorem create_context_window_links_session_witness :
    Args.get [("session_id", JVal.str "s1")] "session_id" = JVal.str "s1" ∧
    JMap.getStr [("s1", (⟨"s1", JVal.str "A", JVal.str "", "t0", []⟩ : Session))] "s1"
      = some ⟨"s1", JVal.str "A", JVal.str "", "t0", []⟩ ∧
    (callTool ⟨[("s1", ⟨"s1", JVal.str "A", JVal.str "", "t0", []⟩)], [], []⟩ ⟨"w1", "t1"⟩
        "create_context_window" (some [("session_id", JVal.str "s1")])).2.sessions.getStr "s1"
      = some ⟨"s1", JVal.str "A", JVal.str "", "t0", ["w1"]⟩ :=
  ⟨rfl, rfl,
    (create_context_window_links_session
      ⟨[("s1", ⟨"s1", JVal.str "A", JVal.str "", "t0", []⟩)], [], []⟩ ⟨"w1", "t1"⟩
      [("session_id", JVal.str "s1")] "s1" ⟨"s1", JVal.str "A", JVal.str "", "t0", []⟩
      rfl rfl).1⟩

/-! ## Statistics over a run -/

/-- The seven arms of the `switch`. -/
theorem dispatch_cases (st : Store) (env : Env) (name : String) (args : Option Args) :
    (name = "create_context_session" ∧
      dispatch st env name args = create_context_session st env args) ∨
    (name = "create_context_window" ∧
      dispatch st env name args = create_context_window st env args) ∨
    (name = "add_context_element" ∧
      dispatch st env name args = add_context_element st env args) ∨
    (name = "get_context_stats" ∧ dispatch st env name args = get_context_stats st) ∨
    (name = "create_prompt_template" ∧
      dispatch st env name args = create_prompt_template st env args) ∨
    (name = "list_prompt_templates" ∧
      dispatch st env name args = list_prompt_templates st args) ∨
    (name ∉ catalog ∧ dispatch st env name args = (.error ("Unknown tool: " ++ name), st)) := by
  unfold dispatch
  split_ifs with h1 h2 h3 h4 h5 h6
  · exact Or.inl ⟨h1, rfl⟩
  · exact Or.inr (Or.inl ⟨h2, rfl⟩)
  · exact Or.inr (Or.inr (Or.inl ⟨h3, rfl⟩))
  · exact Or.inr (Or.inr (Or.inr (Or.inl ⟨h4, rfl⟩)))
  · exact Or.inr (Or.inr (Or.inr (Or.inr (Or.inl ⟨h5, rfl⟩))))
  · exact Or.inr (Or.inr (Or.inr (Or.inr (Or.inr (Or.inl ⟨h6, rfl⟩)))))
  · refine Or.inr (Or.inr (Or.inr (Or.inr (Or.inr (Or.inr ⟨?_, rfl⟩)))))
    simp [catalog, h1, h2, h3, h4, h5, h6]

theorem callTool_snd (st : Store) (env : Env) (name : String) (args : Option Args) :
    (callTool st env name args).2 = (dispatch st env name args).2 := by
  unfold callTool
  split <;> simp_all

theorem callTool_isError (st : Store) (env : Env) (name : String) (args : Option Args) :
    (callTool st env name args).1.isError = !(dispatch st env name args).1.isOk := by
  unfold callTool
  split <;> simp_all [Except.isOk, Except.toBool]

theorem create_context_session_snd (st : Store) (env : Env) (a : Args) :
    (create_context_session st env (some a)).2 =
      { st with sessions := (st.sessions.set env.id
          { id := env.id
            name := (a.get "name").orElse (JVal.str "New Session")
            description := (a.get "description").orElse (JVal.str "")
            created_at := env.now
            windows := [] }) } := by
  simp only [create_context_session]
  split <;> rfl

theorem create_context_session_isOk (st : Store) (env : Env) (a : Args) :
    (create_context_session st env (some a)).1.isOk =
      (((a.get "name").orElse (JVal.str "New Session")).toStr).isSome := by
  simp only [create_context_session]
  split <;> simp_all [Except.isOk, Except.toBool]

theorem create_context_window_snd (st : Store) (env : Env) (a : Args) :
    (create_context_window st env (some a)).2 =
      { st with
        windows := (st.windows.set env.id
          { id := env.id
            session_id := a.get "session_id"
            max_tokens := (a.get "max_tokens").orElse (JVal.num 8192)
            reserved_tokens := (a.get "reserved_tokens").orElse (JVal.num 512)
            elements := []
            created_at := env.now })
        sessions := (st.sessions.modifyAt (a.get "session_id")
          (fun s => { s with windows := s.windows ++ [env.id] })) } := by
  simp only [create_context_window]
  cases hg : st.sessions.get (a.get "session_id") with
  | none =>
    rw [JMap.modifyAt_of_get_none _ _ _ hg]
    split <;> rfl
  | some s => split <;> rfl

theorem create_context_window_isOk (st : Store) (env : Env) (a : Args) :
    (create_context_window st env (some a)).1.isOk =
      (((a.get "max_tokens").orElse (JVal.num 8192)).toStr).isSome := by
  simp only [create_context_window]
  split <;> simp_all [Except.isOk, Except.toBool]

theorem create_prompt_template_snd (st : Store) (env : Env) (a : Args) :
    (create_prompt_template st env (some a)).2 =
      { st with templates := (st.templates.set env.id
          { id := env.id
            name := a.get "name"
            description := a.get "description"
            template := a.get "template"
            category := (a.get "category").orElse (JVal.str "general")
            created_at := env.now }) } := by
  simp only [create_prompt_template]
  split <;> rfl

theorem create_prompt_template_isOk (st : Store) (env : Env) (a : Args) :
    (create_prompt_template st env (some a)).1.isOk = ((a.get "name").toStr).isSome := by
  simp only [create_prompt_template]
  split <;> simp_all [Except.isOk, Except.toBool]

theorem add_context_element_sizes (st : Store) (env : Env) (args : Option Args) :
    (add_context_element st env args).2.sessions = st.sessions ∧
    (add_context_element st env args).2.windows.keys = st.windows.keys ∧
    (add_context_element st env args).2.templates = st.templates := by
  cases args with
  | none => simp [add_context_element]
  | some a =>
    simp only [add_context_element]
    split <;> simp [JMap.keys_modifyAt]

theorem list_prompt_templates_snd (st : Store) (args : Option Args) :
    (list_prompt_templates st args).2 = st := by
  cases args <;> rfl

/-- Keys of the three collections after one invocation: the old keys, plus
the generated id when the tool is one that generates. -/
theorem callTool_keys (st : Store) (env : Env) (name : String) (args : Option Args) :
    (∀ k ∈ (callTool st env name args).2.sessions.keys,
      k ∈ st.sessions.keys ∨ (name ∈ generators ∧ k = env.id)) ∧
    (∀ k ∈ (callTool st env name args).2.windows.keys,
      k ∈ st.windows.keys ∨ (name ∈ generators ∧ k = env.id)) ∧
    (∀ k ∈ (callTool st env name args).2.templates.keys,
      k ∈ st.templates.keys ∨ (name ∈ generators ∧ k = env.id)) := by
  rw [callTool_snd]
  unfold dispatch
  split_ifs with h1 h2 h3 h4 h5 h6
  · subst h1
    cases args with
    | none =>
      refine ⟨?_, ?_, ?_⟩ <;> intro k hk <;> simp_all [create_context_session]
    | some a =>
      rw [create_context_session_snd]
      refine ⟨?_, ?_, ?_⟩ <;> intro k hk <;> simp_all [JMap.mem_keys_set, generators]
  · subst h2
    cases args with
    | none =>
      refine ⟨?_, ?_, ?_⟩ <;> intro k hk <;> simp_all [create_context_window]
    | some a =>
      rw [create_context_window_snd]
      refine ⟨?_, ?_, ?_⟩ <;> intro k hk <;>
        simp_all [JMap.mem_keys_set, generators, JMap.keys_modifyAt]
  · have h := add_context_element_sizes st env args
    rw [h.1, h.2.1, h.2.2]
    exact ⟨fun k hk => Or.inl hk, fun k hk => Or.inl hk, fun k hk => Or.inl hk⟩
  · exact ⟨fun k hk => Or.inl hk, fun k hk => Or.inl hk, fun k hk => Or.inl hk⟩
  · subst h5
    cases args with
    | none =>
      refine ⟨?_, ?_, ?_⟩ <;> intro k hk <;> simp_all [create_prompt_template]
    | some a =>
      rw [create_prompt_template_snd]
      refine ⟨?_, ?_, ?_⟩ <;> intro k hk <;> simp_all [JMap.mem_keys_set, generators]
  · rw [list_prompt_templates_snd]
    exact ⟨fun k hk => Or.inl hk, fun k hk => Or.inl hk, fun k hk => Or.inl hk⟩
  · exact ⟨fun k hk => Or.inl hk, fun k hk => Or.inl hk, fun k hk => Or.inl hk⟩

/-- Sizes of the three collections after one invocation that generated a
fresh id (if it generated one) and did not change the store on failure. -/
theorem callTool_sizes (st : Store) (env : Env) (name : String) (args : Option Args)
    (hfresh : name ∈ generators →
      env.id ∉ st.sessions.keys ∧ env.id ∉ st.windows.keys ∧ env.id ∉ st.templates.keys)
    (hat : (callTool st env name args).1.isError = true → (callTool st env name args).2 = st) :
    (callTool st env name args).2.sessions.size = st.sessions.size +
      (if name = "create_context_session" ∧ (callTool st env name args).1.isError = false
        then 1 else 0) ∧
    (callTool st env name args).2.windows.size = st.windows.size +
      (if name = "create_context_window" ∧ (callTool st env name args).1.isError = false
        then 1 else 0) ∧
    (callTool st env name args).2.templates.size = st.templates.size +
      (if name = "create_prompt_template" ∧ (callTool st env name args).1.isError = false
        then 1 else 0) := by
  by_cases he : (callTool st env name args).1.isError = true
  · rw [hat he]
    simp [he]
  · have he2 : (callTool st env name args).1.isError = false := by simpa using he
    simp only [he2, and_true]
    rw [callTool_isError] at he2
    rw [callTool_snd]
    rcases dispatch_cases st env name args with
      ⟨hn, hd⟩ | ⟨hn, hd⟩ | ⟨hn, hd⟩ | ⟨hn, hd⟩ | ⟨hn, hd⟩ | ⟨hn, hd⟩ | ⟨hn, hd⟩
    · subst hn
      rw [hd] at he2 ⊢
      have hf := hfresh (by simp [generators])
      cases args with
      | none => simp [create_context_session, Except.isOk, Except.toBool] at he2
      | some a =>
        rw [create_context_session_snd]
        simp [JMap.size_set_fresh _ _ _ hf.1]
    · subst hn
      rw [hd] at he2 ⊢
      have hf := hfresh (by simp [generators])
      cases args with
      | none => simp [create_context_window, Except.isOk, Except.toBool] at he2
      | some a =>
        rw [create_context_window_snd]
        simp [JMap.size_set_fresh _ _ _ hf.2.1, JMap.size_modifyAt]
    · subst hn
      rw [hd]
      have h := add_context_element_sizes st env args
      have hw := congrArg List.length h.2.1
      simp only [JMap.keys, List.length_map] at hw
      rw [h.1, h.2.2]
      simp [JMap.size, hw]
    · subst hn
      rw [hd]
      simp [get_context_stats]
    · subst hn
      rw [hd] at he2 ⊢
      have hf := hfresh (by simp [generators])
      cases args with
      | none => simp [create_prompt_template, Except.isOk, Except.toBool] at he2
      | some a =>
        rw [create_prompt_template_snd]
        simp [JMap.size_set_fresh _ _ _ hf.2.2]
    · subst hn
      rw [hd, list_prompt_templates_snd]
      simp
    · rw [hd] at he2
      simp [Except.isOk, Except.toBool] at he2

theorem generatedIds_cons_subset (r : Request) (rest : List Request) :
    ∀ k ∈ generatedIds rest, k ∈ generatedIds (r :: rest) := by
  intro k hk
  by_cases h : r.name ∈ generators <;> simp [generatedIds, h, hk]

theorem generatedIds_nodup_tail (r : Request) (rest : List Request)
    (h : (generatedIds (r :: rest)).Nodup) : (generatedIds rest).Nodup := by
  by_cases hg : r.name ∈ generators
  · simp only [generatedIds, hg, if_true, List.nodup_cons] at h
    exact h.2
  · simpa [generatedIds, hg] using h

/-- Sizes of the collections after a run in which the generated ids are
pairwise distinct and new to the starting store, and in which no failed
request changed the store. -/
theorem run_sizes (reqs : List Request) :
    ∀ st : Store, (generatedIds reqs).Nodup →
      (∀ k ∈ generatedIds reqs,
        k ∉ st.sessions.keys ∧ k ∉ st.windows.keys ∧ k ∉ st.templates.keys) →
      AtomicFailures st reqs →
      (run st reqs).sessions.size
        = st.sessions.size + successes "create_context_session" st reqs ∧
      (run st reqs).windows.size
        = st.windows.size + successes "create_context_window" st reqs ∧
      (run st reqs).templates.size
        = st.templates.size + successes "create_prompt_template" st reqs := by
  induction reqs with
  | nil => intro st _ _ _; simp [run, successes]
  | cons r rest ih =>
    intro st hnd hfresh hat
    obtain ⟨hat1, hat2⟩ := hat
    have hstep := callTool_sizes st r.env r.name r.args
      (fun hg => hfresh r.env.id (by simp [generatedIds, hg])) hat1
    have hkeys := callTool_keys st r.env r.name r.args
    have hfresh2 : ∀ k ∈ generatedIds rest,
        k ∉ (callTool st r.env r.name r.args).2.sessions.keys ∧
        k ∉ (callTool st r.env r.name r.args).2.windows.keys ∧
        k ∉ (callTool st r.env r.name r.args).2.templates.keys := by
      intro k hk
      have hold := hfresh k (generatedIds_cons_subset r rest k hk)
      have hne : ¬ (r.name ∈ generators ∧ k = r.env.id) := by
        rintro ⟨hg, rfl⟩
        simp only [generatedIds, hg, if_true, List.nodup_cons] at hnd
        exact hnd.1 hk
      refine ⟨fun hm => ?_, fun hm => ?_, fun hm => ?_⟩
      · rcases hkeys.1 k hm with h | h
        · exact hold.1 h
        · exact hne h
      · rcases hkeys.2.1 k hm with h | h
        · exact hold.2.1 h
        · exact hne h
      · rcases hkeys.2.2 k hm with h | h
        · exact hold.2.2 h
        · exact hne h
    have hrest := ih (callTool st r.env r.name r.args).2
      (generatedIds_nodup_tail r rest hnd) hfresh2 hat2
    simp only [run, successes]
    rw [hrest.1, hrest.2.1, hrest.2.2, hstep.1, hstep.2.1, hstep.2.2]
    refine ⟨?_, ?_, ?_⟩ <;> omega

/-- C4 as stated fails: a `create_context_session` whose `name` is an object
with an own `toString` entry stores its session (line 137) and then fails to
build the message (line 145), so no creation succeeded and yet
`get_context_stats` reports one session. -/
theorem stats_counts_counterexample :
    (generatedIds [⟨"create_context_session",
        some [("name", JVal.obj [("toString", JVal.num 1)])], ⟨"a1", "t1"⟩⟩]).Nodup ∧
    successes "create_context_session" Store.empty [⟨"create_context_session",
        some [("name", JVal.obj [("toString", JVal.num 1)])], ⟨"a1", "t1"⟩⟩] = 0 ∧
    (callTool (run Store.empty [⟨"create_context_session",
        some [("name", JVal.obj [("toString", JVal.num 1)])], ⟨"a1", "t1"⟩⟩])
      ⟨"a2", "t2"⟩ "get_context_stats" none).1.payload = statsPayload 1 0 0 := by
  refine ⟨by decide, by decide, rfl⟩

/-- C4, amended. Starting from the empty store, after any sequence of
requests whose generated identifiers are pairwise distinct and in which no
request that ended in the Error envelope changed the store,
`get_context_stats` (with any argument bag, or none) reports exactly the
number of successful `create_context_session`, `create_context_window` and
`create_prompt_template` requests, and leaves the store as it is. -/
theorem stats_counts_successes (reqs : List Request) (env : Env) (args : Option Args)
    (hids : (generatedIds reqs).Nodup) (hat : AtomicFailures Store.empty reqs) :
    callTool (run Store.empty reqs) env "get_context_stats" args =
      ({ payload := statsPayload (successes "create_context_session" Store.empty reqs)
            (successes "create_context_window" Store.empty reqs)
            (successes "create_prompt_template" Store.empty reqs),
         isError := false }, run Store.empty reqs) := by
  have h := run_sizes reqs Store.empty hids (by simp [Store.empty, JMap.keys]) hat
  simp only [Store.empty, JMap.size, List.length_nil, Nat.zero_add] at h
  simp [callTool, dispatch, get_context_stats, statsPayload, JMap.size, h, Store.empty]

/-- Witness for C4: the sample run creates one session, one window and one
template, and its one failed request changes nothing. -/
theorem stats_counts_successes_witness :
    (generatedIds sampleRun).Nodup ∧ AtomicFailures Store.empty sampleRun ∧
    successes "create_context_session" Store.empty sampleRun = 1 ∧
    successes "create_context_window" Store.empty sampleRun = 1 ∧
    successes "create_prompt_template" Store.empty sampleRun = 1 ∧
    callTool (run Store.empty sampleRun) ⟨"a5", "t5"⟩ "get_context_stats" none =
      ({ payload := statsPayload (successes "create_context_session" Store.empty sampleRun)
            (successes "create_context_window" Store.empty sampleRun)
            (successes "create_prompt_template" Store.empty sampleRun),
         isError := false }, run Store.empty sampleRun) :=
  have hat : AtomicFailures Store.empty sampleRun :=
    ⟨fun h => absurd h (by decide), fun h => absurd h (by decide), fun _ => rfl,
      fun h => absurd h (by decide), trivial⟩
  ⟨by decide, hat, by decide, by decide, by decide,
    stats_counts_successes sampleRun ⟨"a5", "t5"⟩ none (by decide) hat⟩

/-! ## Listing templates -/

theorem strictEq_str_iff (v : JVal) (c : String) :
    v.strictEq (JVal.str c) = true ↔ v = JVal.str c := by
  cases v <;> simp [JVal.strictEq]

/-- C5 as stated fails at the empty string: on a store holding one template of
category "general", `list_prompt_templates` with category "" returns that
template (total 1), although no template has category "". -/
theorem list_prompt_templates_empty_category_counterexample :
    (callTool oneTemplateStore ⟨"q", "t2"⟩ "list_prompt_templates"
        (some [("category", JVal.str "")])).1.payload.field "total" = some (JVal.num 1) ∧
    (oneTemplateStore.templates.values.filter
        (fun t => t.category.strictEq (JVal.str ""))).length = 0 ∧
    oneTemplateStore.templates.values.map Template.category = [JVal.str "general"] := by
  refine ⟨rfl, by decide, rfl⟩

/-- C5, amended. For every store state and every non-empty string `c`,
`list_prompt_templates` with category `c` returns exactly the templates whose
category equals `c`, in the order of the templates collection, with `total`
their number, and leaves the store unchanged; no returned template has another
category, every template of category `c` is returned, and the call without a
category returns all templates, at least as many.  With the empty string as
category the call is unfiltered and returns all templates. -/
theorem list_prompt_templates_filter (st : Store) (env : Env) (args : Args) (c : String)
    (hc : args.get "category" = JVal.str c) (hne : c ≠ "") :
    callTool st env "list_prompt_templates" (some args) =
      ({ payload := listingPayload
            (st.templates.values.filter (fun t => t.category.strictEq (JVal.str c))),
         isError := false }, st) ∧
    (∀ t ∈ st.templates.values.filter (fun t => t.category.strictEq (JVal.str c)),
      t.category = JVal.str c) ∧
    (∀ t ∈ st.templates.values, t.category = JVal.str c →
      t ∈ st.templates.values.filter (fun t => t.category.strictEq (JVal.str c))) ∧
    (st.templates.values.filter (fun t => t.category.strictEq (JVal.str c))).Sublist
      st.templates.values ∧
    (∀ args0 : Args, args0.get "category" = JVal.undefined ∨ args0.get "category" = JVal.str "" →
      callTool st env "list_prompt_templates" (some args0) =
        ({ payload := listingPayload st.templates.values, isError := false }, st)) ∧
    (st.templates.values.filter (fun t => t.category.strictEq (JVal.str c))).length
      ≤ st.templates.values.length := by
  refine ⟨?_, ?_, ?_, List.filter_sublist _, ?_, List.length_filter_le _ _⟩
  · simp [callTool, dispatch, list_prompt_templates, hc, JVal.truthy, hne, listingPayload]
  · intro t ht
    exact (strictEq_str_iff _ _).1 (List.mem_filter.1 ht).2
  · intro t ht hcat
    exact List.mem_filter.2 ⟨ht, (strictEq_str_iff _ _).2 hcat⟩
  · intro args0 h0
    rcases h0 with h0 | h0 <;>
      simp [callTool, dispatch, list_prompt_templates, h0, JVal.truthy, listingPayload]

/-- Witness for C5: filtering the one-template store by "general". -/
theorem list_prompt_templates_filter_witness :
    Args.get [("category", JVal.str "general")] "category" = JVal.str "general" ∧
    "general" ≠ "" ∧
    callTool oneTemplateStore ⟨"q", "t2"⟩ "list_prompt_templates"
        (some [("category", JVal.str "general")]) =
      ({ payload := listingPayload
            (oneTemplateStore.templates.values.filter
              (fun t => t.category.strictEq (JVal.str "general"))),
         isError := false }, oneTemplateStore) ∧
    (oneTemplateStore.templates.values.filter
        (fun t => t.category.strictEq (JVal.str "general"))).length = 1 :=
  ⟨rfl, by decide,
    (list_prompt_templates_filter oneTemplateStore ⟨"q", "t2"⟩
      [("category", JVal.str "general")] "general" rfl (by decide)).1,
    by decide⟩

/-! ## Elements and windows -/

/-- C6, the code at the failing inputs: on a store with the window "w1",
`add_context_element` with priority 11 succeeds and stores priority 11; with
priority -3 it stores -3; with priority 0 it stores 5.  It neither rejects
nor clamps. -/
theorem add_context_element_priority_unchecked :
    (callTool oneWindowStore ⟨"x", "t2"⟩ "add_context_element"
        (some [("window_id", JVal.str "w1"), ("content", JVal.str "hi"),
               ("priority", JVal.num 11)])).1.isError = false ∧
    ((callTool oneWindowStore ⟨"x", "t2"⟩ "add_context_element"
        (some [("window_id", JVal.str "w1"), ("content", JVal.str "hi"),
               ("priority", JVal.num 11)])).2.windows.getStr "w1").map
        (fun w => w.elements.map Element.priority) = some [JVal.num 11] ∧
    ((callTool oneWindowStore ⟨"x", "t2"⟩ "add_context_element"
        (some [("window_id", JVal.str "w1"), ("content", JVal.str "hi"),
               ("priority", JVal.num (-3))])).2.windows.getStr "w1").map
        (fun w => w.elements.map Element.priority) = some [JVal.num (-3)] ∧
    ((callTool oneWindowStore ⟨"x", "t2"⟩ "add_context_element"
        (some [("window_id", JVal.str "w1"), ("content", JVal.str "hi"),
               ("priority", JVal.num 0)])).2.windows.getStr "w1").map
        (fun w => w.elements.map Element.priority) = some [JVal.num 5] := by
  refine ⟨rfl, rfl, rfl, rfl⟩

/-- C7. For every store state and every `create_context_window` call whose
argument bag has no `max_tokens` and no `reserved_tokens` (whatever its
`session_id`), the call succeeds, returns the generated id as `window_id`, and
under that id the store holds a window with `max_tokens` 8192,
`reserved_tokens` 512, no elements and the given `session_id`. -/
theorem create_context_window_defaults (st : Store) (env : Env) (args : Args)
    (hm : args.get "max_tokens" = JVal.undefined)
    (hr : args.get "reserved_tokens" = JVal.undefined) :
    (callTool st env "create_context_window" (some args)).1 =
      { payload := [("success", JVal.bool true), ("window_id", JVal.str env.id),
          ("message", JVal.str "Context window created with 8192 max tokens")],
        isError := false } ∧
    (callTool st env "create_context_window" (some args)).2.windows.getStr env.id =
      some { id := env.id
             session_id := args.get "session_id"
             max_tokens := JVal.num 8192
             reserved_tokens := JVal.num 512
             elements := []
             created_at := env.now } := by
  constructor
  · simp [callTool, dispatch, create_context_window, hm, hr, JVal.orElse, JVal.truthy,
      JVal.toStr]
    rfl
  · rw [callTool_snd]
    simp [dispatch, create_context_window_snd, JMap.getStr_set_self, hm, hr, JVal.orElse,
      JVal.truthy]

/-- Witness for C7: the call with only a `session_id`, on the empty store. -/
theorem create_context_window_defaults_witness :
    Args.get [("session_id", JVal.str "s1")] "max_tokens" = JVal.undefined ∧
    Args.get [("session_id", JVal.str "s1")] "reserved_tokens" = JVal.undefined ∧
    (callTool Store.empty ⟨"w1", "t1"⟩ "create_context_window"
        (some [("session_id", JVal.str "s1")])).2.windows.getStr "w1" =
      some { id := "w1"
             session_id := JVal.str "s1"
             max_tokens := JVal.num 8192
             reserved_tokens := JVal.num 512
             elements := []
             created_at := "t1" } :=
  ⟨rfl, rfl,
    (create_context_window_defaults Store.empty ⟨"w1", "t1"⟩ [("session_id", JVal.str "s1")]
      rfl rfl).2⟩

/-- C10. For every store state and every `add_context_element` call whose
`window_id` is the key of an existing window holding n elements: the call
succeeds with `element_count` n + 1; the window's element sequence afterwards
is the old sequence followed by one new element carrying the given content
(and the defaulted type and priority); every other window, the key order of
the windows, every session and every template are unchanged. -/
theorem add_context_element_appends (st : Store) (env : Env) (args : Args)
    (wid : String) (w : Window)
    (hwid : args.get "window_id" = JVal.str wid)
    (hw : st.windows.getStr wid = some w) :
    (callTool st env "add_context_element" (some args)).1 =
      { payload := [("success", JVal.bool true),
          ("message", JVal.str "Element added to context window"),
          ("element_count", JVal.num ((w.elements.length : Int) + 1))],
        isError := false } ∧
    (callTool st env "add_context_element" (some args)).2.windows.getStr wid =
      some { w with elements := w.elements ++
        [{ content := args.get "content"
           type := (args.get "type").orElse (JVal.str "user")
           priority := (args.get "priority").orElse (JVal.num 5)
           created_at := env.now }] } ∧
    (∀ k, k ≠ wid →
      (callTool st env "add_context_element" (some args)).2.windows.getStr k
        = st.windows.getStr k) ∧
    (callTool st env "add_context_element" (some args)).2.windows.keys = st.windows.keys ∧
    (callTool st env "add_context_element" (some args)).2.sessions = st.sessions ∧
    (callTool st env "add_context_element" (some args)).2.templates = st.templates := by
  have hget : st.windows.get (JVal.str wid) = some w := by simpa [JMap.get] using hw
  refine ⟨?_, ?_, ?_, ?_, ?_, ?_⟩
  · simp [callTool, dispatch, add_context_element, hwid, hget]
  · simp [callTool, dispatch, add_context_element, hwid, hget, JMap.modifyAt,
      JMap.getStr_modify_self, hw]
  · intro k hk
    simp [callTool, dispatch, add_context_element, hwid, hget, JMap.modifyAt,
      JMap.getStr_modify_other _ _ _ _ hk]
  · simp [callTool, dispatch, add_context_element, hwid, hget, JMap.keys_modifyAt]
  · simp [callTool, dispatch, add_context_element, hwid, hget]
  · simp [callTool, dispatch, add_context_element, hwid, hget]

/-- Witness for C10: a first element for the window of the one-window store. -/
theorem add_context_element_appends_witness :
    Args.get [("window_id", JVal.str "w1"), ("content", JVal.str "hi")] "window_id"
      = JVal.str "w1" ∧
    oneWindowStore.windows.getStr "w1"
      = some ⟨"w1", JVal.str "s1", JVal.num 8192, JVal.num 512, [], "t1"⟩ ∧
    (callTool oneWindowStore ⟨"x", "t2"⟩ "add_context_element"
        (some [("window_id", JVal.str "w1"), ("content", JVal.str "hi")])).2.windows.getStr "w1"
      = some ⟨"w1", JVal.str "s1", JVal.num 8192, JVal.num 512,
          [⟨JVal.str "hi", JVal.str "user", JVal.num 5, "t2"⟩], "t1"⟩ :=
  ⟨rfl, rfl,
    (add_context_element_appends oneWindowStore ⟨"x", "t2"⟩
      [("window_id", JVal.str "w1"), ("content", JVal.str "hi")] "w1"
      ⟨"w1", JVal.str "s1", JVal.num 8192, JVal.num 512, [], "t1"⟩ rfl rfl).2.1⟩

/-! ## The two envelopes -/

/-- What every payload of a normal return looks like, arm by arm. -/
theorem dispatch_ok_payload (st st1 : Store) (env : Env) (name : String)
    (args : Option Args) (p : Payload) (h : dispatch st env name args = (.ok p, st1)) :
    p.field "error" = none ∧ p.field "tool" = none ∧
    ((name = "create_context_session" ∨ name = "create_context_window" ∨
        name = "add_context_element" ∨ name = "create_prompt_template") →
      p.field "success" = some (JVal.bool true) ∧ ∃ m, p.field "message" = some (JVal.str m)) ∧
    ((name = "get_context_stats" ∨ name = "list_prompt_templates") →
      p.field "success" = none ∧ p.field "message" = none) := by
  rcases dispatch_cases st env name args with
    ⟨hn, hd⟩ | ⟨hn, hd⟩ | ⟨hn, hd⟩ | ⟨hn, hd⟩ | ⟨hn, hd⟩ | ⟨hn, hd⟩ | ⟨hn, hd⟩
  · subst hn
    rw [hd] at h
    cases args with
    | none => simp [create_context_session] at h
    | some a =>
      simp only [create_context_session] at h
      split at h <;> simp at h
      obtain ⟨rfl, -⟩ := h
      simp [Payload.field, JMap.getStr]
  · subst hn
    rw [hd] at h
    cases args with
    | none => simp [create_context_window] at h
    | some a =>
      simp only [create_context_window] at h
      split at h <;> simp at h
      obtain ⟨rfl, -⟩ := h
      simp [Payload.field, JMap.getStr]
  · subst hn
    rw [hd] at h
    cases args with
    | none => simp [add_context_element] at h
    | some a =>
      simp only [add_context_element] at h
      split at h <;> simp at h
      obtain ⟨rfl, -⟩ := h
      simp [Payload.field, JMap.getStr]
  · subst hn
    rw [hd] at h
    simp only [get_context_stats] at h
    simp at h
    obtain ⟨rfl, -⟩ := h
    simp [Payload.field, JMap.getStr]
  · subst hn
    rw [hd] at h
    cases args with
    | none => simp [create_prompt_template] at h
    | some a =>
      simp only [create_prompt_template] at h
      split at h <;> simp at h
      obtain ⟨rfl, -⟩ := h
      simp [Payload.field, JMap.getStr]
  · subst hn
    rw [hd] at h
    cases args with
    | none => simp [list_prompt_templates] at h
    | some a =>
      simp only [list_prompt_templates] at h
      simp at h
      obtain ⟨rfl, -⟩ := h
      simp [Payload.field, JMap.getStr]
  · rw [hd] at h
    simp at h

theorem callTool_of_ok (st st1 : Store) (env : Env) (name : String) (args : Option Args)
    (p : Payload) (h : dispatch st env name args = (.ok p, st1)) :
    callTool st env name args = ({ payload := p, isError := false }, st1) := by
  simp [callTool, h]

theorem callTool_of_error (st st1 : Store) (env : Env) (name : String) (args : Option Args)
    (msg : String) (h : dispatch st env name args = (.error msg, st1)) :
    callTool st env name args =
      ({ payload := [("error", JVal.str msg), ("tool", JVal.str name)], isError := true },
        st1) := by
  simp [callTool, h]

/-- Every invocation is one of the two: a normal return or a caught `throw`. -/
theorem dispatch_ok_or_error (st : Store) (env : Env) (name : String) (args : Option Args) :
    (∃ p st1, dispatch st env name args = (.ok p, st1)) ∨
    (∃ msg st1, dispatch st env name args = (.error msg, st1)) := by
  rcases hd : dispatch st env name args with ⟨r, st1⟩
  cases r with
  | ok p => exact Or.inl ⟨p, st1, rfl⟩
  | error msg => exact Or.inr ⟨msg, st1, rfl⟩

/-- C8 as stated fails: `get_context_stats` on the empty store returns
normally, and its payload has neither a `success` nor a `message` field; the
same holds for `list_prompt_templates`. -/
theorem read_payload_counterexample :
    (callTool Store.empty ⟨"a1", "t1"⟩ "get_context_stats" (some [])).1.isError = false ∧
    (callTool Store.empty ⟨"a1", "t1"⟩ "get_context_stats" (some [])).1.payload.field "success"
      = none ∧
    (callTool Store.empty ⟨"a1", "t1"⟩ "get_context_stats" (some [])).1.payload.field "message"
      = none ∧
    (callTool Store.empty ⟨"a1", "t1"⟩ "list_prompt_templates" (some [])).1.isError = false ∧
    (callTool Store.empty ⟨"a1", "t1"⟩ "list_prompt_templates" (some [])).1.payload.field
      "success" = none := by
  refine ⟨rfl, rfl, rfl, rfl, rfl⟩

/-- C8, amended. For the four commands `create_context_session`,
`create_context_window`, `add_context_element` and `create_prompt_template`,
every invocation that does not end in the Error envelope returns a payload
with `success` = true and a `message` string; for `get_context_stats` and
`list_prompt_templates` the payload of a normal return has neither field. -/
theorem success_payload_fields (st : Store) (env : Env) (name : String)
    (args : Option Args) (hok : (callTool st env name args).1.isError = false) :
    ((name = "create_context_session" ∨ name = "create_context_window" ∨
        name = "add_context_element" ∨ name = "create_prompt_template") →
      (callTool st env name args).1.payload.field "success" = some (JVal.bool true) ∧
      ∃ m, (callTool st env name args).1.payload.field "message" = some (JVal.str m)) ∧
    ((name = "get_context_stats" ∨ name = "list_prompt_templates") →
      (callTool st env name args).1.payload.field "success" = none ∧
      (callTool st env name args).1.payload.field "message" = none) := by
  rcases dispatch_ok_or_error st env name args with ⟨p, st1, hd⟩ | ⟨msg, st1, hd⟩
  · rw [callTool_of_ok st st1 env name args p hd]
    exact (dispatch_ok_payload st st1 env name args p hd).2.2
  · rw [callTool_of_error st st1 env name args msg hd] at hok
    simp at hok

/-- Witness for C8: a session created on the empty store. -/
theorem success_payload_fields_witness :
    (callTool Store.empty ⟨"a1", "t1"⟩ "create_context_session" (some [])).1.isError = false ∧
    (callTool Store.empty ⟨"a1", "t1"⟩ "create_context_session" (some [])).1.payload.field
      "success" = some (JVal.bool true) ∧
    (callTool Store.empty ⟨"a1", "t1"⟩ "create_context_session" (some [])).1.payload.field
      "message" = some (JVal.str "Session created: New Session") :=
  have h := (success_payload_fields Store.empty ⟨"a1", "t1"⟩ "create_context_session"
    (some []) rfl).1 (Or.inl rfl)
  ⟨rfl, h.1, rfl⟩

/-- C9. The handler is a total function, and for every store state, command
name and argument bag (present or absent) its response is exactly one of: the
Error envelope, with the failure flag set, an `error` string and `tool` equal
to the invoked name; or a payload without the failure flag that has no `error`
and no `tool` field. -/
theorem callTool_terminal (st : Store) (env : Env) (name : String) (args : Option Args) :
    ((callTool st env name args).1.isError = true ∧
      ∃ msg, (callTool st env name args).1.payload =
        [("error", JVal.str msg), ("tool", JVal.str name)]) ∨
    ((callTool st env name args).1.isError = false ∧
      (callTool st env name args).1.payload.field "error" = none ∧
      (callTool st env name args).1.payload.field "tool" = none) := by
  rcases dispatch_ok_or_error st env name args with ⟨p, st1, hd⟩ | ⟨msg, st1, hd⟩
  · rw [callTool_of_ok st st1 env name args p hd]
    have h := dispatch_ok_payload st st1 env name args p hd
    exact Or.inr ⟨rfl, h.1, h.2.1⟩
  · rw [callTool_of_error st st1 env name args msg hd]
    exact Or.inl ⟨rfl, msg, rfl⟩

/-! ## Window creation without validation -/

/-- C11 as stated fails: with `max_tokens` an object that has an own
`toString` entry, `create_context_window` ends in the Error envelope (the
message of line 176 cannot be built), after the window has been stored. -/
theorem create_context_window_failure_counterexample :
    (callTool Store.empty ⟨"w1", "t1"⟩ "create_context_window"
        (some [("session_id", JVal.str "s1"),
               ("max_tokens", JVal.obj [("toString", JVal.num 1)])])).1.isError = true ∧
    (callTool Store.empty ⟨"w1", "t1"⟩ "create_context_window"
        (some [("session_id", JVal.str "s1"),
               ("max_tokens", JVal.obj [("toString", JVal.num 1)])])).1.payload.field "error"
      = some (JVal.str "Cannot convert object to primitive value") ∧
    (callTool Store.empty ⟨"w1", "t1"⟩ "create_context_window"
        (some [("session_id", JVal.str "s1"),
               ("max_tokens", JVal.obj [("toString", JVal.num 1)])])).2.windows.keys = ["w1"] := by
  refine ⟨rfl, rfl, rfl⟩

/-- C11, amended. For every store state and every argument bag whose
`max_tokens` value (8192 when it is missing or falsy) can be converted to a
string, `create_context_window` succeeds and returns the generated id; the new
window is stored under that id with the `session_id` recorded as given; and
when `session_id` is not the key of any session, no session is modified. -/
theorem create_context_window_unvalidated_session (st : Store) (env : Env) (args : Args)
    (hmt : ((args.get "max_tokens").orElse (JVal.num 8192)).toStr ≠ none) :
    (callTool st env "create_context_window" (some args)).1.isError = false ∧
    (callTool st env "create_context_window" (some args)).1.payload.field "window_id"
      = some (JVal.str env.id) ∧
    (callTool st env "create_context_window" (some args)).2.windows.getStr env.id =
      some { id := env.id
             session_id := args.get "session_id"
             max_tokens := (args.get "max_tokens").orElse (JVal.num 8192)
             reserved_tokens := (args.get "reserved_tokens").orElse (JVal.num 512)
             elements := []
             created_at := env.now } ∧
    (st.sessions.get (args.get "session_id") = none →
      (callTool st env "create_context_window" (some args)).2.sessions = st.sessions) := by
  obtain ⟨mt, hmt2⟩ := Option.ne_none_iff_exists'.1 hmt
  refine ⟨?_, ?_, ?_, ?_⟩
  · rw [callTool_isError]
    simp [dispatch, create_context_window_isOk, hmt2]
  · simp [callTool, dispatch, create_context_window, hmt2, Payload.field, JMap.getStr]
  · rw [callTool_snd]
    simp [dispatch, create_context_window_snd, JMap.getStr_set_self]
  · intro hnone
    rw [callTool_snd]
    simp [dispatch, create_context_window_snd, JMap.modifyAt_of_get_none _ _ _ hnone]

/-- Witness for C11: a window for a session id that no session has. -/
theorem create_context_window_unvalidated_session_witness :
    ((Args.get [("session_id", JVal.str "nobody")] "max_tokens").orElse
        (JVal.num 8192)).toStr ≠ none ∧
    (callTool oneSessionStore ⟨"w1", "t2"⟩ "create_context_window"
        (some [("session_id", JVal.str "nobody")])).1.isError = false ∧
    (callTool oneSessionStore ⟨"w1", "t2"⟩ "create_context_window"
        (some [("session_id", JVal.str "nobody")])).2.sessions = oneSessionStore.sessions :=
  have h := create_context_window_unvalidated_session oneSessionStore ⟨"w1", "t2"⟩
    [("session_id", JVal.str "nobody")] (by decide)
  ⟨by decide, h.1, h.2.2.2 rfl⟩

/-! ## The two reads -/

/-- The two reads with an argument bag: for every store state and every
present argument bag, with or without a category, `get_context_stats` and
`list_prompt_templates` return a payload without the failure flag and leave
the store (sessions, windows, templates) exactly as it was;
`get_context_stats` does so without an argument bag too. -/
theorem reads_have_no_effect (st : Store) (env : Env) (args : Args) :
    (callTool st env "get_context_stats" (some args)).1.isError = false ∧
    (callTool st env "get_context_stats" (some args)).2 = st ∧
    (callTool st env "get_context_stats" none).1.isError = false ∧
    (callTool st env "get_context_stats" none).2 = st ∧
    (callTool st env "list_prompt_templates" (some args)).1.isError = false ∧
    (callTool st env "list_prompt_templates" (some args)).2 = st := by
  refine ⟨?_, ?_, ?_, ?_, ?_, ?_⟩ <;>
    simp [callTool, dispatch, get_context_stats, list_prompt_templates]

/-- C12, the code at the failing input: a call of `list_prompt_templates`
without an `arguments` member (the tool has no required field) fails, for
every store state: line 256 reads `args.category` of `undefined`, and the
Error envelope with the failure flag is returned; the store is unchanged. -/
theorem list_prompt_templates_absent_bag (st : Store) (env : Env) :
    callTool st env "list_prompt_templates" none =
      ({ payload := [("error", JVal.str (undefinedReadMessage "category")),
                     ("tool", JVal.str "list_prompt_templates")],
         isError := true }, st) := by
  simp [callTool, dispatch, list_prompt_templates]

/-! ## Unchecked element type and zero token budgets -/

/-- C15, the code at the failing input: on the reachable store with the
window "w1", `add_context_element` with type "admin" succeeds and the window
then holds an element whose type is "admin". -/
theorem add_context_element_type_unchecked :
    Reachable oneWindowStore ∧
    (callTool oneWindowStore ⟨"x", "t2"⟩ "add_context_element"
        (some [("window_id", JVal.str "w1"), ("content", JVal.str "hi"),
               ("type", JVal.str "admin")])).1.isError = false ∧
    ((callTool oneWindowStore ⟨"x", "t2"⟩ "add_context_element"
        (some [("window_id", JVal.str "w1"), ("content", JVal.str "hi"),
               ("type", JVal.str "admin")])).2.windows.getStr "w1").map
        (fun w => w.elements.map Element.type) = some [JVal.str "admin"] := by
  refine ⟨Reachable.step _ _ _ Reachable.init, rfl, rfl⟩

/-- C16, the code at the failing input: `create_context_window` with
`max_tokens` 0 and `reserved_tokens` 0 stores a window with `max_tokens` 8192
and `reserved_tokens` 512. -/
theorem create_context_window_zero_replaced :
    (callTool Store.empty ⟨"w1", "t1"⟩ "create_context_window"
        (some [("session_id", JVal.str "s1"), ("max_tokens", JVal.num 0),
               ("reserved_tokens", JVal.num 0)])).1.isError = false ∧
    ((callTool Store.empty ⟨"w1", "t1"⟩ "create_context_window"
        (some [("session_id", JVal.str "s1"), ("max_tokens", JVal.num 0),
               ("reserved_tokens", JVal.num 0)])).2.windows.getStr "w1").map
        (fun w => (w.max_tokens, w.reserved_tokens)) = some (JVal.num 8192, JVal.num 512) := by
  refine ⟨rfl, rfl⟩

/-- The window found under the generated id after `create_context_window`. -/
theorem create_context_window_stored (st : Store) (env : Env) (args : Args) :
    (callTool st env "create_context_window" (some args)).2.windows.getStr env.id =
      some { id := env.id
             session_id := args.get "session_id"
             max_tokens := (args.get "max_tokens").orElse (JVal.num 8192)
             reserved_tokens := (args.get "reserved_tokens").orElse (JVal.num 512)
             elements := []
             created_at := env.now } := by
  rw [callTool_snd]
  simp [dispatch, create_context_window_snd, JMap.getStr_set_self]

/-- What `create_context_window` stores for integer budgets: a non-zero
integer as given, 8192 resp. 512 for zero or a missing field. -/
theorem create_context_window_stored_tokens (st : Store) (env : Env) (args : Args) :
    (∀ m : Int, m ≠ 0 → args.get "max_tokens" = JVal.num m →
      ((callTool st env "create_context_window" (some args)).2.windows.getStr env.id).map
        Window.max_tokens = some (JVal.num m)) ∧
    (∀ r : Int, r ≠ 0 → args.get "reserved_tokens" = JVal.num r →
      ((callTool st env "create_context_window" (some args)).2.windows.getStr env.id).map
        Window.reserved_tokens = some (JVal.num r)) ∧
    (args.get "max_tokens" = JVal.undefined ∨ args.get "max_tokens" = JVal.num 0 →
      ((callTool st env "create_context_window" (some args)).2.windows.getStr env.id).map
        Window.max_tokens = some (JVal.num 8192)) ∧
    (args.get "reserved_tokens" = JVal.undefined ∨ args.get "reserved_tokens" = JVal.num 0 →
      ((callTool st env "create_context_window" (some args)).2.windows.getStr env.id).map
        Window.reserved_tokens = some (JVal.num 512)) := by
  rw [create_context_window_stored]
  refine ⟨?_, ?_, ?_, ?_⟩
  · intro m hm h
    simp [h, JVal.orElse, JVal.truthy, hm]
  · intro r hr h
    simp [h, JVal.orElse, JVal.truthy, hr]
  · rintro (h | h) <;> simp [h, JVal.orElse, JVal.truthy]
  · rintro (h | h) <;> simp [h, JVal.orElse, JVal.truthy]

/-! ## Failures and the store -/

/-- C19 as stated fails: `create_context_session` whose `name` is an object
with an own `toString` entry returns the Error envelope, and the sessions
collection, empty before, holds a session afterwards. -/
theorem failure_atomicity_counterexample :
    (callTool Store.empty ⟨"a1", "t1"⟩ "create_context_session"
        (some [("name", JVal.obj [("toString", JVal.num 1)])])).1.isError = true ∧
    (callTool Store.empty ⟨"a1", "t1"⟩ "create_context_session"
        (some [("name", JVal.obj [("toString", JVal.num 1)])])).2.sessions.keys = ["a1"] ∧
    Store.empty.sessions.keys = [] := by
  refine ⟨rfl, rfl, rfl⟩

/-- C19, amended. For every store state, command name and argument bag
(present or absent), if the invocation returns the Error envelope with an
error text other than "Cannot convert object to primitive value" (the failure
of building a success message), then the store is exactly as it was before
the invocation. -/
theorem failure_leaves_store (st : Store) (env : Env) (name : String) (args : Option Args)
    (herr : (callTool st env name args).1.isError = true)
    (hmsg : (callTool st env name args).1.payload.field "error"
      ≠ some (JVal.str cannotConvertMessage)) :
    (callTool st env name args).2 = st := by
  rcases dispatch_ok_or_error st env name args with ⟨p, st1, hd⟩ | ⟨msg, st1, hd⟩
  · rw [callTool_of_ok st st1 env name args p hd] at herr
    simp at herr
  · rw [callTool_of_error st st1 env name args msg hd] at hmsg ⊢
    have hne : msg ≠ cannotConvertMessage := by
      intro h
      apply hmsg
      simp [Payload.field, JMap.getStr, h]
    show st1 = st
    rcases dispatch_cases st env name args with
      ⟨hn, hc⟩ | ⟨hn, hc⟩ | ⟨hn, hc⟩ | ⟨hn, hc⟩ | ⟨hn, hc⟩ | ⟨hn, hc⟩ | ⟨hn, hc⟩
    · rw [hc] at hd
      cases args with
      | none =>
        simp only [create_context_session, Prod.mk.injEq] at hd
        exact hd.2.symm
      | some a =>
        simp only [create_context_session] at hd
        split at hd <;> simp only [Prod.mk.injEq, Except.error.injEq] at hd
        · exact absurd hd.1.symm hne
        · exact absurd hd.1 (by simp)
    · rw [hc] at hd
      cases args with
      | none =>
        simp only [create_context_window, Prod.mk.injEq] at hd
        exact hd.2.symm
      | some a =>
        simp only [create_context_window] at hd
        split at hd <;> simp only [Prod.mk.injEq, Except.error.injEq] at hd
        · exact absurd hd.1.symm hne
        · exact absurd hd.1 (by simp)
    · rw [hc] at hd
      cases args with
      | none =>
        simp only [add_context_element, Prod.mk.injEq] at hd
        exact hd.2.symm
      | some a =>
        simp only [add_context_element] at hd
        split at hd <;> simp only [Prod.mk.injEq] at hd
        · exact hd.2.symm
        · exact absurd hd.1 (by simp)
    · rw [hc] at hd
      simp only [get_context_stats, Prod.mk.injEq] at hd
      exact absurd hd.1 (by simp)
    · rw [hc] at hd
      cases args with
      | none =>
        simp only [create_prompt_template, Prod.mk.injEq] at hd
        exact hd.2.symm
      | some a =>
        simp only [create_prompt_template] at hd
        split at hd <;> simp only [Prod.mk.injEq, Except.error.injEq] at hd
        · exact absurd hd.1.symm hne
        · exact absurd hd.1 (by simp)
    · rw [hc] at hd
      cases args with
      | none =>
        simp only [list_prompt_templates, Prod.mk.injEq] at hd
        exact hd.2.symm
      | some a =>
        simp only [list_prompt_templates, Prod.mk.injEq] at hd
        exact absurd hd.1 (by simp)
    · rw [hc] at hd
      simp only [Prod.mk.injEq] at hd
      exact hd.2.symm

/-- Witness for C19: `create_context_window` without an argument bag fails
on reading `session_id` and leaves the one-session store as it was. -/
theorem failure_leaves_store_witness :
    (callTool oneSessionStore ⟨"w1", "t2"⟩ "create_context_window" none).1.isError = true ∧
    (callTool oneSessionStore ⟨"w1", "t2"⟩ "create_context_window" none).1.payload.field "error"
      ≠ some (JVal.str cannotConvertMessage) ∧
    (callTool oneSessionStore ⟨"w1", "t2"⟩ "create_context_window" none).2 = oneSessionStore := by
  have hne : (callTool oneSessionStore ⟨"w1", "t2"⟩ "create_context_window"
      none).1.payload.field "error" ≠ some (JVal.str cannotConvertMessage) := by
    simp [callTool, dispatch, create_context_window, Payload.field, JMap.getStr,
      undefinedReadMessage, cannotConvertMessage]
  exact ⟨rfl, hne,
    failure_leaves_store oneSessionStore ⟨"w1", "t2"⟩ "create_context_window" none rfl hne⟩

/-! ## Identifier collisions -/

namespace JMap

variable {V : Type}

theorem size_set_present (m : JMap V) (key : String) (v : V) (h : key ∈ keys m) :
    size (set m key v) = size m := by
  induction m with
  | nil => simp [keys] at h
  | cons p rest ih =>
    obtain ⟨k, w⟩ := p
    by_cases hk : k = key
    · simp [set, size, hk]
    · have hrest : key ∈ keys rest := by
        simp only [keys, List.map_cons, List.mem_cons] at h
        rcases h with h | h
        · exact absurd h.symm hk
        · simpa [keys] using h
      have := ih hrest
      simp only [size] at this
      simp [set, size, hk, this]

theorem size_set_succ_iff (m : JMap V) (key : String) (v : V) :
    size (set m key v) = size m + 1 ↔ key ∉ keys m := by
  constructor
  · intro h hmem
    rw [size_set_present m key v hmem] at h
    omega
  · exact size_set_fresh m key v

end JMap

/-- C20. With the generated id as an input (`env.id`), for every store state
and every present argument bag (a successful creation always has one):
`create_context_session`, `create_context_window` and `create_prompt_template`
each increase the size of their own collection by exactly one if and only if
the id is not already a key of it; when it is a key the size is unchanged; in
both cases the entity found under the id afterwards is the new one, and the
other two collections keep their sizes. -/
theorem create_size_iff_fresh (st : Store) (env : Env) (a : Args) :
    (((callTool st env "create_context_session" (some a)).2.sessions.size
          = st.sessions.size + 1 ↔ env.id ∉ st.sessions.keys) ∧
      (env.id ∈ st.sessions.keys →
        (callTool st env "create_context_session" (some a)).2.sessions.size
          = st.sessions.size) ∧
      (callTool st env "create_context_session" (some a)).2.sessions.getStr env.id =
        some { id := env.id
               name := (a.get "name").orElse (JVal.str "New Session")
               description := (a.get "description").orElse (JVal.str "")
               created_at := env.now
               windows := [] } ∧
      (callTool st env "create_context_session" (some a)).2.windows.size = st.windows.size ∧
      (callTool st env "create_context_session" (some a)).2.templates.size
        = st.templates.size) ∧
    (((callTool st env "create_context_window" (some a)).2.windows.size
          = st.windows.size + 1 ↔ env.id ∉ st.windows.keys) ∧
      (env.id ∈ st.windows.keys →
        (callTool st env "create_context_window" (some a)).2.windows.size
          = st.windows.size) ∧
      (callTool st env "create_context_window" (some a)).2.windows.getStr env.id =
        some { id := env.id
               session_id := a.get "session_id"
               max_tokens := (a.get "max_tokens").orElse (JVal.num 8192)
               reserved_tokens := (a.get "reserved_tokens").orElse (JVal.num 512)
               elements := []
               created_at := env.now } ∧
      (callTool st env "create_context_window" (some a)).2.sessions.size = st.sessions.size ∧
      (callTool st env "create_context_window" (some a)).2.templates.size
        = st.templates.size) ∧
    (((callTool st env "create_prompt_template" (some a)).2.templates.size
          = st.templates.size + 1 ↔ env.id ∉ st.templates.keys) ∧
      (env.id ∈ st.templates.keys →
        (callTool st env "create_prompt_template" (some a)).2.templates.size
          = st.templates.size) ∧
      (callTool st env "create_prompt_template" (some a)).2.templates.getStr env.id =
        some { id := env.id
               name := a.get "name"
               description := a.get "description"
               template := a.get "template"
               category := (a.get "category").orElse (JVal.str "general")
               created_at := env.now } ∧
      (callTool st env "create_prompt_template" (some a)).2.sessions.size = st.sessions.size ∧
      (callTool st env "create_prompt_template" (some a)).2.windows.size
        = st.windows.size) ∧
    (∀ name ∈ generators, (callTool st env name none).1.isError = true) := by
  have h1 : (callTool st env "create_context_session" (some a)).2
      = (create_context_session st env (some a)).2 := by
    rw [callTool_snd]; simp [dispatch]
  have h2 : (callTool st env "create_context_window" (some a)).2
      = (create_context_window st env (some a)).2 := by
    rw [callTool_snd]; simp [dispatch]
  have h3 : (callTool st env "create_prompt_template" (some a)).2
      = (create_prompt_template st env (some a)).2 := by
    rw [callTool_snd]; simp [dispatch]
  rw [h1, h2, h3, create_context_session_snd, create_context_window_snd,
    create_prompt_template_snd]
  refine ⟨⟨JMap.size_set_succ_iff _ _ _, JMap.size_set_present _ _ _,
      JMap.getStr_set_self _ _ _, rfl, rfl⟩,
    ⟨JMap.size_set_succ_iff _ _ _, JMap.size_set_present _ _ _,
      JMap.getStr_set_self _ _ _, JMap.size_modifyAt _ _ _, rfl⟩,
    ⟨JMap.size_set_succ_iff _ _ _, JMap.size_set_present _ _ _,
      JMap.getStr_set_self _ _ _, rfl, rfl⟩, ?_⟩
  intro name hname
  simp only [generators, List.mem_cons, List.mem_singleton, List.not_mem_nil, or_false]
    at hname
  rcases hname with rfl | rfl | rfl <;>
    simp [callTool, dispatch, create_context_session, create_context_window,
      create_prompt_template]

/-! ## Append-only store -/

namespace JMap

variable {V : Type}

theorem mem_keys_of_getStr (m : JMap V) (k : String) (v : V) (h : getStr m k = some v) :
    k ∈ keys m := by
  induction m with
  | nil => simp [getStr] at h
  | cons p rest ih =>
    obtain ⟨k0, w⟩ := p
    by_cases hk : k0 = k
    · simp [keys, hk]
    · simp only [getStr, hk, if_false] at h
      have := ih h
      simp only [keys] at this
      simp [keys, this]

theorem getStr_set_fresh (m : JMap V) (key k : String) (v x : V)
    (hfresh : key ∉ keys m) (h : getStr m k = some x) : getStr (set m key v) k = some x := by
  have hne : k ≠ key := by
    rintro rfl
    exact hfresh (mem_keys_of_getStr m k x h)
  rw [getStr_set_other m key k v hne, h]

theorem getStr_modifyAt (m : JMap V) (key : JVal) (f : V → V) (k : String) (x : V)
    (h : getStr m k = some x) :
    getStr (modifyAt m key f) k = some x ∨ getStr (modifyAt m key f) k = some (f x) := by
  cases key with
  | str sid =>
    by_cases hk : k = sid
    · subst hk
      right
      simp [modifyAt, getStr_modify_self, h]
    · left
      simp [modifyAt, getStr_modify_other _ _ _ _ hk, h]
  | _ => left; simpa [modifyAt] using h

end JMap

/-- C13 as stated fails: when `create_context_session` generates an id that
is already the key of a session, that session is replaced: here the session
"a1" named "Research" is afterwards named "Other". -/
theorem append_only_counterexample :
    (oneSessionStore.sessions.getStr "a1").map Session.name = some (JVal.str "Research") ∧
    ((callTool oneSessionStore ⟨"a1", "t2"⟩ "create_context_session"
        (some [("name", JVal.str "Other")])).2.sessions.getStr "a1").map Session.name
      = some (JVal.str "Other") ∧
    (callTool oneSessionStore ⟨"a1", "t2"⟩ "create_context_session"
        (some [("name", JVal.str "Other")])).1.isError = false := by
  refine ⟨rfl, rfl, rfl⟩

/-- C13, amended. For every store state, command name and argument bag
(present or absent), provided the id generated by a creating command is not
already a key of the collection that command inserts into: every session,
window and template present before the invocation is present afterwards under
the same key with all fields unchanged, except that a session's window list
and a window's element sequence may have entries appended at the end. -/
theorem store_append_only (st : Store) (env : Env) (name : String) (args : Option Args)
    (hs : name = "create_context_session" → env.id ∉ st.sessions.keys)
    (hw : name = "create_context_window" → env.id ∉ st.windows.keys)
    (ht : name = "create_prompt_template" → env.id ∉ st.templates.keys) :
    (∀ k s, st.sessions.getStr k = some s →
      ∃ more, (callTool st env name args).2.sessions.getStr k
        = some { s with windows := s.windows ++ more }) ∧
    (∀ k w, st.windows.getStr k = some w →
      ∃ more, (callTool st env name args).2.windows.getStr k
        = some { w with elements := w.elements ++ more }) ∧
    (∀ k t, st.templates.getStr k = some t →
      (callTool st env name args).2.templates.getStr k = some t) := by
  have base : ∀ st1 : Store, st1 = st →
      (∀ k s, st.sessions.getStr k = some s →
        ∃ more, st1.sessions.getStr k = some { s with windows := s.windows ++ more }) ∧
      (∀ k w, st.windows.getStr k = some w →
        ∃ more, st1.windows.getStr k = some { w with elements := w.elements ++ more }) ∧
      (∀ k t, st.templates.getStr k = some t → st1.templates.getStr k = some t) := by
    rintro st1 rfl
    exact ⟨fun k s h => ⟨[], by simp [h]⟩, fun k w h => ⟨[], by simp [h]⟩, fun k t h => h⟩
  rw [callTool_snd]
  rcases dispatch_cases st env name args with
    ⟨hn, hc⟩ | ⟨hn, hc⟩ | ⟨hn, hc⟩ | ⟨hn, hc⟩ | ⟨hn, hc⟩ | ⟨hn, hc⟩ | ⟨hn, hc⟩
  · rw [hc]
    cases args with
    | none => exact base _ rfl
    | some a =>
      rw [create_context_session_snd]
      refine ⟨fun k s h => ⟨[], ?_⟩, fun k w h => ⟨[], by simp [h]⟩, fun k t h => h⟩
      simp [JMap.getStr_set_fresh _ _ _ _ _ (hs hn) h]
  · rw [hc]
    cases args with
    | none => exact base _ rfl
    | some a =>
      rw [create_context_window_snd]
      refine ⟨fun k s h => ?_, fun k w h => ⟨[], ?_⟩, fun k t h => h⟩
      · rcases JMap.getStr_modifyAt st.sessions (a.get "session_id")
          (fun s => { s with windows := s.windows ++ [env.id] }) k s h with h2 | h2
        · exact ⟨[], by simp [h2]⟩
        · exact ⟨[env.id], by simp [h2]⟩
      · simp [JMap.getStr_set_fresh _ _ _ _ _ (hw hn) h]
  · rw [hc]
    cases args with
    | none => exact base _ rfl
    | some a =>
      simp only [add_context_element]
      split
      · exact base _ rfl
      · refine ⟨fun k s h => ⟨[], by simp [h]⟩, fun k w h => ?_, fun k t h => h⟩
        rcases JMap.getStr_modifyAt st.windows (a.get "window_id")
          (fun w => { w with elements := w.elements ++
            [{ content := a.get "content"
               type := (a.get "type").orElse (JVal.str "user")
               priority := (a.get "priority").orElse (JVal.num 5)
               created_at := env.now }] }) k w h with h2 | h2
        · exact ⟨[], by simp [h2]⟩
        · exact ⟨_, h2⟩
  · rw [hc]
    exact base _ rfl
  · rw [hc]
    cases args with
    | none => exact base _ rfl
    | some a =>
      rw [create_prompt_template_snd]
      refine ⟨fun k s h => ⟨[], by simp [h]⟩, fun k w h => ⟨[], by simp [h]⟩, fun k t h => ?_⟩
      exact JMap.getStr_set_fresh _ _ _ _ _ (ht hn) h
  · rw [hc, list_prompt_templates_snd]
    exact base _ rfl
  · rw [hc]
    exact base _ rfl

/-- Witness for C13: a window created in the session of the one-session
store, under a new id; the session keeps its fields and gains one entry. -/
theorem store_append_only_witness :
    "w1" ∉ oneSessionStore.windows.keys ∧
    oneSessionStore.sessions.getStr "a1"
      = some ⟨"a1", JVal.str "Research", JVal.str "", "t1", []⟩ ∧
    ∃ more, (callTool oneSessionStore ⟨"w1", "t2"⟩ "create_context_window"
        (some [("session_id", JVal.str "a1")])).2.sessions.getStr "a1"
      = some ⟨"a1", JVal.str "Research", JVal.str "", "t1", [] ++ more⟩ :=
  ⟨by decide, rfl,
    (store_append_only oneSessionStore ⟨"w1", "t2"⟩ "create_context_window"
      (some [("session_id", JVal.str "a1")]) (fun h => absurd h (by decide))
      (fun _ => by decide) (fun h => absurd h (by decide))).1 "a1"
      ⟨"a1", JVal.str "Research", JVal.str "", "t1", []⟩ rfl⟩

/-! ## Token budgets of stored windows -/

namespace JMap

variable {V : Type}

theorem mem_values_set (m : JMap V) (key : String) (v x : V)
    (h : x ∈ values (set m key v)) : x ∈ values m ∨ x = v := by
  induction m with
  | nil => simpa [set, values] using h
  | cons p rest ih =>
    obtain ⟨k, w⟩ := p
    by_cases hk : k = key
    · simp only [set, hk, if_true, values, List.map_cons, List.mem_cons] at h
      rcases h with h | h
      · exact Or.inr h
      · exact Or.inl (by simp [values, h])
    · simp only [set, hk, if_false, values, List.map_cons, List.mem_cons] at h
      rcases h with h | h
      · exact Or.inl (by simp [values, h])
      · rcases ih (by simpa [values] using h) with h2 | h2
        · simp only [values] at h2
          exact Or.inl (by simp [values, h2])
        · exact Or.inr h2

theorem mem_values_modify (m : JMap V) (key : String) (f : V → V) (x : V)
    (h : x ∈ values (modify m key f)) : x ∈ values m ∨ ∃ w ∈ values m, x = f w := by
  induction m with
  | nil => simp [modify, values] at h
  | cons p rest ih =>
    obtain ⟨k, w⟩ := p
    by_cases hk : k = key
    · simp only [modify, hk, if_true, values, List.map_cons, List.mem_cons] at h
      rcases h with h | h
      · exact Or.inr ⟨w, by simp [values], h⟩
      · exact Or.inl (by simp [values, h])
    · simp only [modify, hk, if_false, values, List.map_cons, List.mem_cons] at h
      rcases h with h | h
      · exact Or.inl (by simp [values, h])
      · rcases ih (by simpa [values] using h) with h2 | ⟨w2, hw2, hx⟩
        · simp only [values] at h2
          exact Or.inl (by simp [values, h2])
        · simp only [values] at hw2
          exact Or.inr ⟨w2, by simp [values, hw2], hx⟩

theorem mem_values_modifyAt (m : JMap V) (key : JVal) (f : V → V) (x : V)
    (h : x ∈ values (modifyAt m key f)) : x ∈ values m ∨ ∃ w ∈ values m, x = f w := by
  cases key with
  | str sid => exact mem_values_modify m sid f x (by simpa [modifyAt] using h)
  | _ => left; simpa [modifyAt] using h

end JMap

/-- Where the token budgets of a window held after one invocation come from:
from a window held before, or from the arguments of `create_context_window`. -/
theorem callTool_window_tokens (st : Store) (env : Env) (name : String)
    (args : Option Args) :
    ∀ w ∈ (callTool st env name args).2.windows.values,
      (∃ w0 ∈ st.windows.values,
        w.max_tokens = w0.max_tokens ∧ w.reserved_tokens = w0.reserved_tokens) ∨
      (name = "create_context_window" ∧ ∃ a, args = some a ∧
        w.max_tokens = (a.get "max_tokens").orElse (JVal.num 8192) ∧
        w.reserved_tokens = (a.get "reserved_tokens").orElse (JVal.num 512)) := by
  have base : ∀ st1 : Store, st1.windows = st.windows → ∀ w ∈ st1.windows.values,
      (∃ w0 ∈ st.windows.values,
        w.max_tokens = w0.max_tokens ∧ w.reserved_tokens = w0.reserved_tokens) ∨
      (name = "create_context_window" ∧ ∃ a, args = some a ∧
        w.max_tokens = (a.get "max_tokens").orElse (JVal.num 8192) ∧
        w.reserved_tokens = (a.get "reserved_tokens").orElse (JVal.num 512)) := by
    intro st1 h w hw
    exact Or.inl ⟨w, h ▸ hw, rfl, rfl⟩
  rw [callTool_snd]
  rcases dispatch_cases st env name args with
    ⟨hn, hc⟩ | ⟨hn, hc⟩ | ⟨hn, hc⟩ | ⟨hn, hc⟩ | ⟨hn, hc⟩ | ⟨hn, hc⟩ | ⟨hn, hc⟩
  · rw [hc]
    cases args with
    | none => exact base _ rfl
    | some a =>
      rw [create_context_session_snd]
      exact base _ rfl
  · rw [hc]
    cases args with
    | none => exact base _ rfl
    | some a =>
      rw [create_context_window_snd]
      intro w hw
      rcases JMap.mem_values_set _ _ _ _ hw with h | h
      · exact Or.inl ⟨w, h, rfl, rfl⟩
      · exact Or.inr ⟨hn, a, rfl, by simp [h], by simp [h]⟩
  · rw [hc]
    cases args with
    | none => exact base _ rfl
    | some a =>
      simp only [add_context_element]
      split
      · exact base _ rfl
      · intro w hw
        rcases JMap.mem_values_modifyAt _ _ _ _ hw with h | ⟨w0, hw0, h⟩
        · exact Or.inl ⟨w, h, rfl, rfl⟩
        · exact Or.inl ⟨w0, hw0, by simp [h], by simp [h]⟩
  · rw [hc]
    exact base _ rfl
  · rw [hc]
    cases args with
    | none => exact base _ rfl
    | some a =>
      rw [create_prompt_template_snd]
      exact base _ rfl
  · rw [hc, list_prompt_templates_snd]
    exact base _ rfl
  · rw [hc]
    exact base _ rfl

/-- A property of the token budgets that every `create_context_window`
request of a run establishes holds for every window held after the run. -/
theorem run_window_tokens (Q : JVal → JVal → Prop) (reqs : List Request) :
    ∀ st : Store,
      (∀ r ∈ reqs, ∀ a, r.args = some a →
        Q ((a.get "max_tokens").orElse (JVal.num 8192))
          ((a.get "reserved_tokens").orElse (JVal.num 512))) →
      (∀ w ∈ st.windows.values, Q w.max_tokens w.reserved_tokens) →
      ∀ w ∈ (run st reqs).windows.values, Q w.max_tokens w.reserved_tokens := by
  induction reqs with
  | nil => intro st _ h; simpa [run] using h
  | cons r rest ih =>
    intro st hreq hst
    simp only [run]
    refine ih _ (fun q hq => hreq q (List.mem_cons_of_mem _ hq)) ?_
    intro w hw
    rcases callTool_window_tokens st r.env r.name r.args w hw with
      ⟨w0, hw0, h1, h2⟩ | ⟨_, a, ha, h1, h2⟩
    · rw [h1, h2]
      exact hst w0 hw0
    · rw [h1, h2]
      exact hreq r (List.mem_cons_self _ _) a ha

theorem orElse_integer (v : JVal) (d : Int) (hd : d ≠ 0)
    (h : v = JVal.undefined ∨ ∃ n, v = JVal.num n) :
    ∃ i : Int, v.orElse (JVal.num d) = JVal.num i ∧ i ≠ 0 ∧
      ((∀ n, v = JVal.num n → 0 ≤ n) → 0 < d → 0 < i) := by
  rcases h with h | ⟨n, h⟩
  · subst h
    exact ⟨d, by simp [JVal.orElse, JVal.truthy], hd, fun _ h0 => h0⟩
  · subst h
    by_cases hn : n = 0
    · subst hn
      exact ⟨d, by simp [JVal.orElse, JVal.truthy], hd, fun _ h0 => h0⟩
    · refine ⟨n, by simp [JVal.orElse, JVal.truthy, hn], hn, fun hpos _ => ?_⟩
      have := hpos n rfl
      omega

/-- C14 as stated fails: `create_context_window` with the integers
`max_tokens` -5 and `reserved_tokens` -1 stores a window with exactly these
values. -/
theorem negative_tokens_counterexample :
    IntegerTokens ⟨"create_context_window",
        some [("session_id", JVal.str "s1"), ("max_tokens", JVal.num (-5)),
              ("reserved_tokens", JVal.num (-1))], ⟨"w1", "t1"⟩⟩ ∧
    (run Store.empty [⟨"create_context_window",
        some [("session_id", JVal.str "s1"), ("max_tokens", JVal.num (-5)),
              ("reserved_tokens", JVal.num (-1))], ⟨"w1", "t1"⟩⟩]).windows.values.map
        (fun w => (w.max_tokens, w.reserved_tokens)) = [(JVal.num (-5), JVal.num (-1))] := by
  refine ⟨?_, rfl⟩
  intro a ha
  cases ha
  exact ⟨Or.inr ⟨-5, rfl⟩, Or.inr ⟨-1, rfl⟩⟩

/-- C14, amended. In every store state reached from the empty store by a
sequence of commands whose `max_tokens` and `reserved_tokens` arguments are
integers or missing, every stored window has an integer `max_tokens` other than
0 and an integer `reserved_tokens` other than 0; if moreover none of the
supplied integers is negative, every stored window has `max_tokens` > 0 and
`reserved_tokens` > 0. -/
theorem stored_tokens_nonzero (reqs : List Request)
    (hint : ∀ r ∈ reqs, IntegerTokens r) :
    ∀ w ∈ (run Store.empty reqs).windows.values,
      ∃ m r : Int, w.max_tokens = JVal.num m ∧ w.reserved_tokens = JVal.num r ∧
        m ≠ 0 ∧ r ≠ 0 ∧ ((∀ q ∈ reqs, NoNegativeTokens q) → 0 < m ∧ 0 < r) := by
  intro w hw
  by_cases hneg : ∀ q ∈ reqs, NoNegativeTokens q
  · have h := run_window_tokens
      (fun x y => ∃ m r : Int, x = JVal.num m ∧ y = JVal.num r ∧ 0 < m ∧ 0 < r)
      reqs Store.empty
      (by
        intro q hq a ha
        obtain ⟨hm, hr⟩ := hint q hq a ha
        obtain ⟨hm2, hr2⟩ := hneg q hq a ha
        obtain ⟨i, hi, _, hipos⟩ := orElse_integer (a.get "max_tokens") 8192 (by decide) hm
        obtain ⟨j, hj, _, hjpos⟩ := orElse_integer (a.get "reserved_tokens") 512 (by decide) hr
        exact ⟨i, j, hi, hj, hipos hm2 (by decide), hjpos hr2 (by decide)⟩)
      (by simp [Store.empty, JMap.values]) w hw
    obtain ⟨m, r, h1, h2, h3, h4⟩ := h
    exact ⟨m, r, h1, h2, by omega, by omega, fun _ => ⟨h3, h4⟩⟩
  · have h := run_window_tokens
      (fun x y => ∃ m r : Int, x = JVal.num m ∧ y = JVal.num r ∧ m ≠ 0 ∧ r ≠ 0)
      reqs Store.empty
      (by
        intro q hq a ha
        obtain ⟨hm, hr⟩ := hint q hq a ha
        obtain ⟨i, hi, hi0, _⟩ := orElse_integer (a.get "max_tokens") 8192 (by decide) hm
        obtain ⟨j, hj, hj0, _⟩ := orElse_integer (a.get "reserved_tokens") 512 (by decide) hr
        exact ⟨i, j, hi, hj, hi0, hj0⟩)
      (by simp [Store.empty, JMap.values]) w hw
    obtain ⟨m, r, h1, h2, h3, h4⟩ := h
    exact ⟨m, r, h1, h2, h3, h4, fun hall => absurd hall hneg⟩

/-- Witness for C14: one window created with `max_tokens` 4096 and no
`reserved_tokens`. -/
theorem stored_tokens_nonzero_witness :
    (∀ r ∈ [(⟨"create_context_window",
        some [("session_id", JVal.str "s1"), ("max_tokens", JVal.num 4096)],
        ⟨"w1", "t1"⟩⟩ : Request)], IntegerTokens r) ∧
    (run Store.empty [⟨"create_context_window",
        some [("session_id", JVal.str "s1"), ("max_tokens", JVal.num 4096)],
        ⟨"w1", "t1"⟩⟩]).windows.values.map (fun w => (w.max_tokens, w.reserved_tokens))
      = [(JVal.num 4096, JVal.num 512)] ∧
    ∀ w ∈ (run Store.empty [⟨"create_context_window",
        some [("session_id", JVal.str "s1"), ("max_tokens", JVal.num 4096)],
        ⟨"w1", "t1"⟩⟩]).windows.values,
      ∃ m r : Int, w.max_tokens = JVal.num m ∧ w.reserved_tokens = JVal.num r ∧
        m ≠ 0 ∧ r ≠ 0 ∧
        ((∀ q ∈ [(⟨"create_context_window",
            some [("session_id", JVal.str "s1"), ("max_tokens", JVal.num 4096)],
            ⟨"w1", "t1"⟩⟩ : Request)], NoNegativeTokens q) → 0 < m ∧ 0 < r) := by
  have hint : ∀ r ∈ [(⟨"create_context_window",
      some [("session_id", JVal.str "s1"), ("max_tokens", JVal.num 4096)],
      ⟨"w1", "t1"⟩⟩ : Request)], IntegerTokens r := by
    intro r hr
    rw [List.mem_singleton] at hr
    subst hr
    intro a ha
    cases ha
    exact ⟨Or.inr ⟨4096, rfl⟩, Or.inl rfl⟩
  exact ⟨hint, rfl, stored_tokens_nonzero _ hint⟩

/-! ## Sessions refer to stored windows -/

/-- One invocation keeps the property that every id in a session's window
list is a key of the windows collection. -/
theorem callTool_keeps_window_links (st : Store) (env : Env) (name : String)
    (args : Option Args)
    (h : ∀ s ∈ st.sessions.values, ∀ wid ∈ s.windows, wid ∈ st.windows.keys) :
    ∀ s ∈ (callTool st env name args).2.sessions.values,
      ∀ wid ∈ s.windows, wid ∈ (callTool st env name args).2.windows.keys := by
  rw [callTool_snd]
  rcases dispatch_cases st env name args with
    ⟨hn, hc⟩ | ⟨hn, hc⟩ | ⟨hn, hc⟩ | ⟨hn, hc⟩ | ⟨hn, hc⟩ | ⟨hn, hc⟩ | ⟨hn, hc⟩
  · rw [hc]
    cases args with
    | none => exact h
    | some a =>
      rw [create_context_session_snd]
      intro s hs wid hwid
      rcases JMap.mem_values_set _ _ _ _ hs with h1 | h1
      · exact h s h1 wid hwid
      · subst h1
        simp at hwid
  · rw [hc]
    cases args with
    | none => exact h
    | some a =>
      rw [create_context_window_snd]
      intro s hs wid hwid
      show wid ∈ JMap.keys (JMap.set st.windows env.id _)
      rw [JMap.mem_keys_set]
      rcases JMap.mem_values_modifyAt _ _ _ _ hs with h1 | ⟨s0, hs0, h1⟩
      · exact Or.inl (h s h1 wid hwid)
      · subst h1
        simp only [List.mem_append, List.mem_singleton] at hwid
        rcases hwid with h2 | h2
        · exact Or.inl (h s0 hs0 wid h2)
        · exact Or.inr h2
  · rw [hc]
    have hsz := add_context_element_sizes st env args
    intro s hs wid hwid
    rw [hsz.2.1]
    rw [hsz.1] at hs
    exact h s hs wid hwid
  · rw [hc]
    exact h
  · rw [hc]
    cases args with
    | none => exact h
    | some a =>
      rw [create_prompt_template_snd]
      exact h
  · rw [hc, list_prompt_templates_snd]
    exact h
  · rw [hc]
    exact h

theorem reachable_run (reqs : List Request) :
    ∀ st : Store, Reachable st → Reachable (run st reqs) := by
  induction reqs with
  | nil => intro st h; exact h
  | cons r rest ih =>
    intro st h
    exact ih _ (Reachable.step r.env r.name r.args h)

/-- C18. In every store state reachable from the empty store by any sequence
of commands (whatever their arguments and generated ids), every id contained
in the window list of any session is a key of the windows collection. -/
theorem window_ids_resolve (st : Store) (hreach : Reachable st) :
    ∀ s ∈ st.sessions.values, ∀ wid ∈ s.windows, wid ∈ st.windows.keys := by
  induction hreach with
  | init => simp [Store.empty, JMap.values]
  | step env name args _ ih => exact callTool_keeps_window_links _ env name args ih

/-- Witness for C18: after the sample run the session "a1" lists the window
"a2", which is a key of the windows collection. -/
theorem window_ids_resolve_witness :
    Reachable (run Store.empty sampleRun) ∧
    (run Store.empty sampleRun).sessions.values.map Session.windows = [["a2"]] ∧
    ∀ s ∈ (run Store.empty sampleRun).sessions.values,
      ∀ wid ∈ s.windows, wid ∈ (run Store.empty sampleRun).windows.keys :=
  ⟨reachable_run sampleRun Store.empty Reachable.init, rfl,
    window_ids_resolve (run Store.empty sampleRun)
      (reachable_run sampleRun Store.empty Reachable.init)⟩

/-! ## Distinctness of generated identifiers -/

set_option maxRecDepth 100000 in
theorem base36Digit_inj : ∀ a < 36, ∀ b < 36, base36Digit a = base36Digit b → a = b := by
  decide

theorem map_base36Digit_inj (l1 : List Nat) : ∀ l2 : List Nat,
    (∀ x ∈ l1, x < 36) → (∀ x ∈ l2, x < 36) →
    l1.map base36Digit = l2.map base36Digit → l1 = l2 := by
  induction l1 with
  | nil => intro l2 _ _ h; cases l2 <;> simp_all
  | cons a t ih =>
    intro l2 h1 h2 h
    cases l2 with
    | nil => simp at h
    | cons b u =>
      simp only [List.map_cons, List.cons.injEq] at h
      have hab := base36Digit_inj a (h1 a (by simp)) b (h2 b (by simp)) h.1
      have := ih u (fun x hx => h1 x (by simp [hx])) (fun x hx => h2 x (by simp [hx])) h.2
      simp [hab, this]

theorem toBase36_ne_zero_text (n : Nat) (hn : n ≠ 0) :
    String.mk ((Nat.digits 36 n).reverse.map base36Digit) ≠ "0" := by
  intro h
  have h1 : (Nat.digits 36 n).reverse.map base36Digit = [0].map base36Digit := by
    have := congrArg String.data h
    simpa using this
  have h2 := map_base36Digit_inj _ [0]
    (fun x hx => Nat.digits_lt_base (by norm_num) (List.mem_reverse.1 hx))
    (by simp) h1
  have h3 : Nat.digits 36 n = [0] := by
    have := congrArg List.reverse h2
    simpa using this
  have h4 := Nat.ofDigits_digits 36 n
  rw [h3] at h4
  simp [Nat.ofDigits] at h4
  exact hn h4.symm

theorem toBase36_injective (n m : Nat) (h : toBase36 n = toBase36 m) : n = m := by
  unfold toBase36 at h
  by_cases hn : n = 0 <;> by_cases hm : m = 0
  · rw [hn, hm]
  · simp only [hn, hm, if_true, if_false] at h
    exact absurd h.symm (toBase36_ne_zero_text m hm)
  · simp only [hn, hm, if_true, if_false] at h
    exact absurd h (toBase36_ne_zero_text n hn)
  · simp only [hn, hm, if_false] at h
    have h : List.map base36Digit (Nat.digits 36 n).reverse
        = List.map base36Digit (Nat.digits 36 m).reverse := congrArg String.data h
    have h2 := map_base36Digit_inj _ _
      (fun x hx => Nat.digits_lt_base (by norm_num) (List.mem_reverse.1 hx))
      (fun x hx => Nat.digits_lt_base (by norm_num) (List.mem_reverse.1 hx)) h
    exact Nat.digits.injective 36 (List.reverse_injective h2)

theorem generateId_injective (radix36 : ℚ → String) (r1 r2 : ℚ) (t1 t2 : Nat)
    (hlen : (toBase36 t1).length = (toBase36 t2).length)
    (h : generateId radix36 r1 t1 = generateId radix36 r2 t2) :
    (radix36 r1).drop 2 = (radix36 r2).drop 2 ∧ t1 = t2 := by
  unfold generateId at h
  have h1 := congrArg String.data h
  simp only [String.data_append] at h1
  have h2 := List.append_inj' h1 hlen
  exact ⟨String.ext h2.1, toBase36_injective t1 t2 (String.ext h2.2)⟩

/-- Two calls that print the same random digits in the same millisecond
return the same identifier, whatever the conversion; the random values
themselves need not be equal. -/
theorem generateId_same_digits (radix36 : ℚ → String) (r1 r2 : ℚ) (t : Nat)
    (h : (radix36 r1).drop 2 = (radix36 r2).drop 2) :
    ¬ (generatedBy radix36 [(r1, t), (r2, t)]).Nodup := by
  simp [generatedBy, generateId, h]

/-- C17 as stated fails: two sequential calls in which `Math.random()`
returns 0.5 within the same millisecond both return `iloyw3v28`. -/
theorem generateId_collision_counterexample :
    generateId radix36Sample (1 / 2) 1700000000000 = "iloyw3v28" ∧
    ¬ (generatedBy radix36Sample
        [(1 / 2, 1700000000000), (1 / 2, 1700000000000)]).Nodup := by
  constructor
  · simp [generateId, radix36Sample, toBase36, base36Digit]
    decide
  · exact generateId_same_digits radix36Sample (1 / 2) (1 / 2) 1700000000000 rfl

/-- C17, amended. For every N, the N values returned by N sequential calls
of `generateId` are pairwise distinct, provided that no two of the calls have
both the same printed random digits (the text of `Math.random().toString(36)`
after its first two characters) and the same clock value, and that the
base-36 texts of the clock values read have one length (as they do for all
times from mid-1972 to mid-2059).  This holds for every conversion `radix36`. -/
theorem generateId_distinct (radix36 : ℚ → String) (readings : List (ℚ × Nat))
    (hlen : ∀ p ∈ readings, ∀ q ∈ readings,
      (toBase36 p.2).length = (toBase36 q.2).length)
    (hdist : (readings.map (fun p => ((radix36 p.1).drop 2, p.2))).Nodup) :
    (generatedBy radix36 readings).Nodup := by
  unfold generatedBy
  have h : readings.map (fun p => generateId radix36 p.1 p.2)
      = (readings.map (fun p => ((radix36 p.1).drop 2, p.2))).map
          (fun q => q.1 ++ toBase36 q.2) := by
    simp [generateId, Function.comp_def]
  rw [h]
  refine List.Nodup.map_on ?_ hdist
  intro x hx y hy hxy
  obtain ⟨p, hp, rfl⟩ := List.mem_map.1 hx
  obtain ⟨q, hq, rfl⟩ := List.mem_map.1 hy
  have h3 := generateId_injective radix36 p.1 q.1 p.2 q.2 (hlen p hp q hq) hxy
  simp [h3.1, h3.2]

/-- Witness for C17: two calls in the same millisecond that read 0.5 and
0.25, and a third call one millisecond later that reads 0.5 again. -/
theorem generateId_distinct_witness :
    (∀ p ∈ [((1 / 2 : ℚ), 1700000000000), (1 / 4, 1700000000000),
            (1 / 2, 1700000000001)],
      ∀ q ∈ [((1 / 2 : ℚ), 1700000000000), (1 / 4, 1700000000000),
            (1 / 2, 1700000000001)],
      (toBase36 p.2).length = (toBase36 q.2).length) ∧
    ([((1 / 2 : ℚ), 1700000000000), (1 / 4, 1700000000000),
        (1 / 2, 1700000000001)].map
        (fun p => ((radix36Sample p.1).drop 2, p.2))).Nodup ∧
    (generatedBy radix36Sample [(1 / 2, 1700000000000), (1 / 4, 1700000000000),
        (1 / 2, 1700000000001)]).Nodup := by
  have hlen : ∀ p ∈ [((1 / 2 : ℚ), 1700000000000), (1 / 4, 1700000000000),
            (1 / 2, 1700000000001)],
      ∀ q ∈ [((1 / 2 : ℚ), 1700000000000), (1 / 4, 1700000000000),
            (1 / 2, 1700000000001)],
      (toBase36 p.2).length = (toBase36 q.2).length := by
    have h0 : (toBase36 1700000000000).length = 8 := by simp [toBase36, String.length]
    have h1 : (toBase36 1700000000001).length = 8 := by simp [toBase36, String.length]
    intro p hp q hq
    simp only [List.mem_cons, List.mem_singleton, List.not_mem_nil, or_false] at hp hq
    rcases hp with rfl | rfl | rfl <;> rcases hq with rfl | rfl | rfl <;> simp only [h0, h1]
  have hdist : ([((1 / 2 : ℚ), 1700000000000), (1 / 4, 1700000000000),
        (1 / 2, 1700000000001)].map
        (fun p => ((radix36Sample p.1).drop 2, p.2))).Nodup := by
    have ha : radix36Sample (1 / 2) = "0.i" := by simp [radix36Sample]
    have hb : radix36Sample (1 / 4) = "0.9" := by norm_num [radix36Sample]
    simp only [List.map_cons, List.map_nil, ha, hb]
    decide
  exact ⟨hlen, hdist, generateId_distinct radix36Sample _ hlen hdist⟩

end StandaloneMCPServer
